/-
Verification development for the MCP-style trip/market agent repository.

Shallow embedding of:
  src/utils/trace.py        (MCPTrace / ToolCall recorder)
  src/utils/llm.py          (Groq -> Gemini -> sentinel gateway)
  src/tools/weather.py      (current weather + 5-day forecast adapter)
  src/tools/flights.py      (deterministic sample flight generator)
  src/tools/hotels.py       (deterministic sample hotel generator)
  src/tools/places.py       (curated / LLM-parsed / generic attractions)
  src/tools/currency_fx.py  (currency metadata + FX rates adapter)
  src/tools/exchanges.py    (static stock-exchange table)
  src/tools/stocks.py       (stock index adapter)
  src/utils/fallbacks.py    (static fallback prose)
  src/utils/agent_trip.py   (Trip Agent pipeline)
  src/utils/agent_market.py (Market Agent pipeline)

Modelling conventions:
  * Python dicts with a fixed key set become structures; a key that is absent
    in some of the branches that build the dict becomes an `Option` field,
    with `none` for "key not present".
  * Python numbers become `Int`/`Rat` (floats are modelled exactly as
    rationals; `round` is modelled as round-half-to-even, Python's rule).
  * External I/O (HTTP calls, yfinance, the two LLM SDKs) is abstracted as
    environment records holding a function that either returns the parsed
    payload or fails with an exception message (`Except String _`), exactly
    at the granularity of the `try:` blocks of the source.
  * `st.cache_data` memoises a function without changing its input/output
    behaviour within one process, so the embedding drops it.
  * Python string methods are re-implemented over `List Char` so that proofs
    can evaluate them (the core `String` API does not kernel-reduce).
-/
import Mathlib

/-! ## Python string primitives (over `List Char`, so they kernel-reduce) -/

/-- `str.lower()` (ASCII, which covers every key used by the repository). -/
def pyLower (s : String) : String := ⟨s.data.map Char.toLower⟩

/-- `str.upper()` (ASCII). -/
def pyUpper (s : String) : String := ⟨s.data.map Char.toUpper⟩

/-- `str.strip()`: remove leading and trailing whitespace. -/
def pyStrip (s : String) : String :=
  ⟨((s.data.dropWhile Char.isWhitespace).reverse.dropWhile Char.isWhitespace).reverse⟩

/-- Auxiliary for `str.split(sep)` with a one-character separator. -/
def pySplitCharAux (sep : Char) : List Char → List Char → List String
  | [], acc => [⟨acc.reverse⟩]
  | c :: r, acc =>
    if c = sep then ⟨acc.reverse⟩ :: pySplitCharAux sep r []
    else pySplitCharAux sep r (c :: acc)

/-- `str.split(sep)` for a one-character separator (the repository only splits
on `"\n"`, `"|"` and `"."`). -/
def pySplitChar (sep : Char) (s : String) : List String := pySplitCharAux sep s.data []

/-- Everything after the first occurrence of `sep`, if any. -/
def afterFirstChar (sep : Char) : List Char → Option (List Char)
  | [] => none
  | c :: r => if c = sep then some r else afterFirstChar sep r

/-- `s.split(".", 1)[-1]`: drop everything up to and including the first dot;
the whole string when there is no dot. -/
def pyAfterFirstDot (s : String) : String :=
  match afterFirstChar '.' s.data with
  | some r => ⟨r⟩
  | none => s

/-- Fuel-based core of `str.replace` (the pattern is never empty here). -/
def pyReplaceAux (pat repl : List Char) : Nat → List Char → List Char
  | 0, l => l
  | _ + 1, [] => []
  | f + 1, c :: r =>
    if pat.isPrefixOf (c :: r) then repl ++ pyReplaceAux pat repl f ((c :: r).drop pat.length)
    else c :: pyReplaceAux pat repl f r

/-- `str.replace(pat, repl)` for a non-empty pattern. -/
def pyReplace (s pat repl : String) : String :=
  ⟨pyReplaceAux pat.data repl.data (s.data.length + 1) s.data⟩

/-- `str.startswith(p)`. -/
def pyStartsWith (s p : String) : Bool := p.data.isPrefixOf s.data

/-- `s[:n]` (first `n` characters). -/
def pyTake (s : String) (n : Nat) : String := ⟨s.data.take n⟩

/-- `sep.join(l)`. -/
def pyJoin (sep : String) : List String → String
  | [] => ""
  | h :: t => t.foldl (fun acc x => acc ++ sep ++ x) h

/-- Auxiliary for `str.title()`: the flag records whether the previous
character was alphabetic. -/
def pyTitleAux : Bool → List Char → List Char
  | _, [] => []
  | prev, c :: r =>
    if c.isAlpha then (if prev then c.toLower else c.toUpper) :: pyTitleAux true r
    else c :: pyTitleAux false r

/-- `str.title()` (ASCII approximation: a letter starts a word iff the
previous character is not a letter). -/
def pyTitle (s : String) : String := ⟨pyTitleAux false s.data⟩

/-- `f"{n:02d}"` for the non-negative numbers formatted by the repository. -/
def pad2 (n : Int) : String := if 0 ≤ n ∧ n < 10 then "0" ++ toString n else toString n

/-- Numeric value of a digit string. -/
def digitsToNat (l : List Char) : Nat := l.foldl (fun acc c => 10 * acc + (c.toNat - 48)) 0

/-- Python `float(...)` on the decimal forms that the attraction-rating parse
can meet: optional sign, digits, optional fractional part. -/
def pyFloat? (s : String) : Option Rat :=
  let core : List Char → Option Rat := fun t =>
    match afterFirstChar '.' t with
    | none =>
      if t ≠ [] ∧ t.all Char.isDigit then some (digitsToNat t) else none
    | some fp =>
      let ip := t.takeWhile (· ≠ '.')
      if (ip ≠ [] ∨ fp ≠ []) ∧ ip.all Char.isDigit ∧ fp.all Char.isDigit then
        some ((digitsToNat ip : Rat) + (digitsToNat fp : Rat) / ((10 : Rat) ^ fp.length))
      else none
  match s.data with
  | '-' :: t => (core t).map (fun q => -q)
  | '+' :: t => core t
  | t => core t

/-! ## Python rounding (round-half-to-even) on exact rationals -/

/-- Python `round(q)`: nearest integer, ties to even. -/
def pythonRound (q : Rat) : Int :=
  let f : Int := q.floor
  let r : Rat := q - (f : Rat)
  if r < 1/2 then f
  else if (1/2 : Rat) < r then f + 1
  else if f % 2 = 0 then f else f + 1

/-- Python `round(q, 1)`. -/
def pyRound1 (q : Rat) : Rat := (pythonRound (q * 10) : Rat) / 10

/-- Python `round(q, 2)`. -/
def pyRound2 (q : Rat) : Rat := (pythonRound (q * 100) : Rat) / 100

/-- `str()` of a float that is an exact multiple of 1/10 in `[0, +inf)`
(the hotel ratings), e.g. `4.5` ↦ `"4.5"`, `4.0` ↦ `"4.0"`. -/
def showRat1 (q : Rat) : String :=
  let n : Int := (q * 10).floor
  toString (n / 10) ++ "." ++ toString (n % 10)

/-- Python truthiness of an `Optional[str]`: `None` and `""` are falsy. -/
def pyTruthy : Option String → Bool
  | none => false
  | some s => !(s == "")

/-- Python truthiness of a `str`. -/
def strTruthy (s : String) : Bool := !(s == "")

/-! ## src/utils/trace.py — the execution-trace recorder -/

/-- Values appearing in the `inputs` mapping of a recorded call (the
orchestrators only pass strings and integers as keyword arguments). -/
inductive PyVal where
  | str (s : String)
  | int (n : Int)
deriving DecidableEq

/-- `ToolCall` dataclass.  `ω` is the type of recorded outputs (Python
`Any`); `output = none` models the default `None`. -/
structure ToolCall (ω : Type) where
  tool_name : String
  inputs : List (String × PyVal)
  output : Option ω := none
  status : String := "pending"
  timestamp : Rat
  duration_ms : Rat := 0
  error : Option String := none
deriving DecidableEq

/-- `MCPTrace`: the ordered list of recorded calls. -/
structure MCPTrace (ω : Type) where
  calls : List (ToolCall ω)
deriving DecidableEq

/-- `MCPTrace.start_call`: append a fresh pending call (timestamped `now`)
and return its index. -/
def MCPTrace.start_call (tr : MCPTrace ω) (tool_name : String)
    (inputs : List (String × PyVal)) (now : Rat) : MCPTrace ω × Nat :=
  (⟨tr.calls ++ [{ tool_name := tool_name, inputs := inputs, timestamp := now }]⟩,
   tr.calls.length)

/-- The in-place mutation performed by `end_call` once `self.calls[index]`
has been resolved to the call at (non-negative) position `i`. -/
def finalizeCall (tr : MCPTrace ω) (i : Nat) (output : Option ω)
    (error : Option String) (now : Rat) : MCPTrace ω :=
  match tr.calls[i]? with
  | none => tr
  | some c =>
    ⟨tr.calls.set i
      { c with
        output := output,
        duration_ms := pyRound1 ((now - c.timestamp) * 1000),
        status := if pyTruthy error then "error" else "success",
        error := error }⟩

/-- `MCPTrace.end_call`.  `self.calls[index]` follows Python list indexing:
negative indices count from the end, anything outside `[-len, len)` raises
`IndexError: list index out of range` (modelled as `Except.error`, which in
particular leaves the trace unchanged). -/
def MCPTrace.end_call (tr : MCPTrace ω) (index : Int) (output : Option ω)
    (error : Option String) (now : Rat) : Except String (MCPTrace ω) :=
  let n : Int := tr.calls.length
  if 0 ≤ index ∧ index < n then
    .ok (finalizeCall tr index.toNat output error now)
  else if -n ≤ index ∧ index < 0 then
    .ok (finalizeCall tr (index + n).toNat output error now)
  else
    .error "list index out of range"

/-- `MCPTrace.get_calls`. -/
def MCPTrace.get_calls (tr : MCPTrace ω) : List (ToolCall ω) := tr.calls

/-! ## src/utils/llm.py — the text-completion gateway -/

/-- Environment of `_ask_groq`: the `GROQ_API_KEY` value (`""` when unset)
and the SDK round-trip, which either returns `response.choices[0].message.content`
(an `Optional[str]`) or raises. -/
structure GroqEnv where
  apiKey : String
  call : String → Except String (Option String)

/-- `_ask_groq`: `None` on missing key, on a raised exception, and when the
backend returns a `None` content. -/
def ask_groq (env : GroqEnv) (prompt : String) : Option String :=
  if env.apiKey = "" then none
  else
    match env.call prompt with
    | .ok content => content
    | .error _ => none

/-- Environment of `_ask_gemini`: whether `google.genai` imported
(`HAS_GOOGLE`), the `GOOGLE_API_KEY` value, and the SDK round-trip. -/
structure GeminiEnv where
  hasGoogle : Bool
  apiKey : String
  call : String → Except String (Option String)

/-- `_ask_gemini`. -/
def ask_gemini_backend (env : GeminiEnv) (prompt : String) : Option String :=
  if env.hasGoogle = false then none
  else if env.apiKey = "" then none
  else
    match env.call prompt with
    | .ok text => text
    | .error _ => none

/-- The two backends available to the gateway. -/
structure LLMEnv where
  groq : GroqEnv
  gemini : GeminiEnv

/-- `ask_gemini` (the public gateway): Groq first, then Gemini, then the
reserved sentinel.  `if result:` is Python truthiness, so an empty-string
backend answer also falls through. -/
def ask_gemini (L : LLMEnv) (prompt : String) : String :=
  let result := ask_groq L.groq prompt
  if pyTruthy result then result.getD ""
  else
    let result2 := ask_gemini_backend L.gemini prompt
    if pyTruthy result2 then result2.getD ""
    else "__LLM_UNAVAILABLE__"

/-! ## src/tools/weather.py -/

/-- Result shape of `get_current_weather` (the key `note` is absent on the
live-success branch). -/
structure CurrentWeather where
  temp_c : Rat
  feels_like_c : Rat
  description : String
  humidity : Rat
  wind_kph : Rat
  icon : String
  sample : Bool
  city : String
  note : Option String
deriving DecidableEq

/-- `{**SAMPLE_CURRENT, "city": city, "note": note}`. -/
def SAMPLE_CURRENT_with (city note : String) : CurrentWeather :=
  { temp_c := 22, feels_like_c := 21, description := "Partly cloudy", humidity := 55,
    wind_kph := 12.5, icon := "02d", sample := true, city := city, note := some note }

/-- Fields read from a successful OpenWeather current-conditions response. -/
structure LiveCurrent where
  temp : Rat
  feels_like : Rat
  description : String
  humidity : Rat
  wind_speed : Rat
  icon : String

/-- One 3-hour slot of the OpenWeather forecast payload. -/
structure FcItem where
  dt_txt : String
  temp : Rat
  description : String
  humidity : Rat

/-- Environment of the weather adapter: the `OPENWEATHER_API_KEY` value and
the two HTTP round-trips (each `try:` block body up to the parsed fields).
`pickMostCommon` models `max(set(xs), key=xs.count)`, whose choice among
equally-frequent descriptions depends on Python's set iteration order. -/
structure WeatherEnv where
  apiKey : String
  current : String → Except String LiveCurrent
  forecastItems : String → Except String (List FcItem)
  pickMostCommon : List String → String

/-- `get_current_weather`. -/
def get_current_weather (env : WeatherEnv) (city : String) : CurrentWeather :=
  if env.apiKey = "" then SAMPLE_CURRENT_with city "SAMPLE DATA - OPENWEATHER_API_KEY not set"
  else
    match env.current city with
    | .ok d =>
      { city := city,
        temp_c := pyRound1 d.temp,
        feels_like_c := pyRound1 d.feels_like,
        description := pyTitle d.description,
        humidity := d.humidity,
        wind_kph := pyRound1 (d.wind_speed * 3.6),
        icon := d.icon,
        sample := false,
        note := none }
    | .error e => SAMPLE_CURRENT_with city ("SAMPLE DATA - API error: " ++ e)

/-- One row of the forecast result (the keys `sample` and `note` are set on
every branch except that `note` is absent on the live-success branch). -/
structure ForecastDay where
  date : String
  temp_min : Rat
  temp_max : Rat
  description : String
  humidity : Rat
  sample : Bool
  note : Option String
deriving DecidableEq

/-- `[{"sample": True, "note": note, **f} for f in SAMPLE_FORECAST]`. -/
def SAMPLE_FORECAST_with (note : String) : List ForecastDay :=
  [ { date := "Day 1", temp_min := 18, temp_max := 25, description := "Sunny", humidity := 50,
      sample := true, note := some note },
    { date := "Day 2", temp_min := 17, temp_max := 24, description := "Partly cloudy", humidity := 55,
      sample := true, note := some note },
    { date := "Day 3", temp_min := 19, temp_max := 26, description := "Clear sky", humidity := 48,
      sample := true, note := some note },
    { date := "Day 4", temp_min := 16, temp_max := 23, description := "Light rain", humidity := 70,
      sample := true, note := some note },
    { date := "Day 5", temp_min := 18, temp_max := 24, description := "Sunny", humidity := 52,
      sample := true, note := some note } ]

/-- `item["dt_txt"].split(" ")[0]`. -/
def fcDate (it : FcItem) : String := (pySplitChar ' ' it.dt_txt).headD ""

/-- Append `it` to the group keyed `key`, creating the group at the end when
absent (Python dict insertion order). -/
def addToGroups (key : String) (it : FcItem) :
    List (String × List FcItem) → List (String × List FcItem)
  | [] => [(key, [it])]
  | (k, l) :: rest =>
    if k = key then (k, l ++ [it]) :: rest else (k, l) :: addToGroups key it rest

/-- The `daily` grouping loop of `get_weather_forecast`. -/
def groupByDate (items : List FcItem) : List (String × List FcItem) :=
  items.foldl (fun gs it => addToGroups (fcDate it) it gs) []

/-- Minimum of a non-empty list of rationals. -/
def rlistMin (h : Rat) (t : List Rat) : Rat := t.foldl min h

/-- Maximum of a non-empty list of rationals. -/
def rlistMax (h : Rat) (t : List Rat) : Rat := t.foldl max h

/-- One aggregated day of the live forecast (`daily` groups are built
non-empty; the empty case is unreachable). -/
def forecastOfGroup (env : WeatherEnv) (g : String × List FcItem) : ForecastDay :=
  match g.2 with
  | [] =>
    { date := g.1, temp_min := 0, temp_max := 0, description := "", humidity := 0,
      sample := false, note := none }
  | h :: t =>
    let all := h :: t
    { date := g.1,
      temp_min := pyRound1 (rlistMin h.temp (t.map (·.temp))),
      temp_max := pyRound1 (rlistMax h.temp (t.map (·.temp))),
      description := pyTitle (env.pickMostCommon (all.map (·.description))),
      humidity := ((pythonRound ((all.map (·.humidity)).sum / (all.length : Rat))) : Rat),
      sample := false,
      note := none }

/-- `get_weather_forecast`. -/
def get_weather_forecast (env : WeatherEnv) (city : String) : List ForecastDay :=
  if env.apiKey = "" then SAMPLE_FORECAST_with "SAMPLE DATA"
  else
    match env.forecastItems city with
    | .ok items => ((groupByDate items).take 5).map (forecastOfGroup env)
    | .error e => SAMPLE_FORECAST_with ("SAMPLE DATA - API error: " ++ e)

/-! ## Python's `random` module, as an abstract deterministic generator

The flight/hotel tools call `random.seed(...)` and then draw from the global
generator.  The embedding abstracts the Mersenne Twister as any
deterministic generator: a state type `S`, a seeding function, and one pure
transition per drawing primitive used by the source. -/

structure PyRandom (S : Type) where
  seed : Int → S
  randint : Int → Int → S → Int × S
  choiceIdx : Nat → S → Nat × S
  weightedIdx : List Nat → S → Nat × S
  sampleIdx : Nat → Nat → S → List Nat × S
  uniform : Rat → Rat → S → Rat × S

/-- `random.choice(l)` (drawing an index, then reading the list). -/
def pyChoice (R : PyRandom S) (l : List α) (d : α) (s : S) : α × S :=
  let p := R.choiceIdx l.length s
  (l.getD p.1 d, p.2)

/-- `random.sample(pool, k)` for a string pool. -/
def pySample (R : PyRandom S) (pool : List String) (k : Nat) (s : S) : List String × S :=
  let p := R.sampleIdx pool.length k s
  (p.1.map (fun i => pool.getD i ""), p.2)

/-! ## src/tools/flights.py -/

def AIRLINES : List String :=
  ["Air India", "IndiGo", "Emirates", "Singapore Airlines",
   "Japan Airlines", "ANA", "Delta", "United Airlines",
   "British Airways", "Lufthansa", "Qatar Airways", "Thai Airways",
   "Korean Air", "Cathay Pacific", "Turkish Airlines"]

def DURATIONS : List String :=
  ["2h 30m", "3h 15m", "4h 00m", "5h 45m", "7h 20m",
   "8h 10m", "10h 30m", "12h 00m", "14h 25m", "16h 50m"]

/-- One flight-option dict.  `fromCity`/`toCity`/`travelClass` are the dict
keys `"from"`/`"to"`/`"class"` (Lean keywords). -/
structure Flight where
  airline : String
  flight_no : String
  fromCity : String
  toCity : String
  date : String
  departure : String
  duration : String
  stops : Int
  stop_label : String
  price_usd : Int
  total_usd : Int
  travelers : Int
  travelClass : String
  sample : Bool
  note : String
deriving DecidableEq

/-- One iteration of the flight-generation loop, in the source's exact
drawing order. -/
def genFlight (R : PyRandom S) (from_city to_city date : String) (travelers : Int)
    (s : S) : Flight × S :=
  let a := pyChoice R AIRLINES "" s
  let airline := a.1
  let h := R.randint 5 22 a.2
  let dep_hour := h.1
  let m := pyChoice R ([0, 15, 30, 45] : List Int) 0 h.2
  let dep_min := m.1
  let st := R.weightedIdx [40, 45, 15] m.2
  let stops : Int := ([0, 1, 2] : List Int).getD st.1 0
  let bp := R.randint 150 1200 st.2
  let adj := R.randint (-50) 100 bp.2
  let price_per_person := max 100 (bp.1 + stops * adj.1)
  let fno := R.randint 100 999 adj.2
  let du := pyChoice R DURATIONS "" fno.2
  let cl := pyChoice R ["Economy", "Economy", "Economy", "Premium Economy", "Business"] "" du.2
  ({ airline := airline,
     flight_no := pyUpper (pyTake airline 2) ++ toString fno.1,
     fromCity := from_city, toCity := to_city, date := date,
     departure := pad2 dep_hour ++ ":" ++ pad2 dep_min,
     duration := du.1,
     stops := stops,
     stop_label :=
       if stops = 0 then "Non-stop"
       else toString stops ++ " stop" ++ (if stops > 1 then "s" else ""),
     price_usd := price_per_person,
     total_usd := price_per_person * travelers,
     travelers := travelers,
     travelClass := cl.1,
     sample := true,
     note := "⚠️ SAMPLE DATA – real flight API not connected" }, cl.2)

/-- The `for i in range(num_options)` loop (appends in order). -/
def genFlights (R : PyRandom S) (from_city to_city date : String) (travelers : Int) :
    Nat → S → List Flight × S
  | 0, s => ([], s)
  | n + 1, s =>
    let p := genFlight R from_city to_city date travelers s
    let rest := genFlights R from_city to_city date travelers n p.2
    (p.1 :: rest.1, rest.2)

/-- Stable insertion by an integer key: an earlier element stays before a
later one of equal key. -/
def insertByKey (key : α → Int) (x : α) : List α → List α
  | [] => [x]
  | y :: ys => if key x ≤ key y then x :: y :: ys else y :: insertByKey key x ys

/-- `list.sort(key=...)`: Python's sort is the stable ascending sort by the
key, which this insertion sort implements (sortedness and stability are
proved below). -/
def sortByKey (key : α → Int) : List α → List α
  | [] => []
  | x :: xs => insertByKey key x (sortByKey key xs)

/-- The flight list as generated, before the final price sort. -/
def flightsRaw (R : PyRandom S) (hsh : String → Int)
    (from_city to_city date : String) (travelers : Int) : List Flight :=
  let s0 := R.seed (hsh (from_city ++ to_city ++ date) % (2 ^ 31))
  let n := R.randint 3 5 s0
  (genFlights R from_city to_city date travelers n.1.toNat n.2).1

/-- `search_flights`.  `hsh` is Python's (per-process) string `hash`; `s` is
the global generator state before the call, which `random.seed` overwrites,
and the second component is the state after the call. -/
def search_flights (R : PyRandom S) (hsh : String → Int)
    (from_city to_city date : String) (travelers : Int) (s : S) : List Flight × S :=
  let s0 := R.seed (hsh (from_city ++ to_city ++ date) % (2 ^ 31))
  let n := R.randint 3 5 s0
  let g := genFlights R from_city to_city date travelers n.1.toNat n.2
  (sortByKey (fun x => x.price_usd) g.1, g.2)

/-! ## src/tools/hotels.py -/

def PREFIXES : List String :=
  ["Grand", "Royal", "Imperial", "The", "Hotel", "Park", "Palace", "Heritage"]

def SUFFIXES : List String :=
  ["Inn", "Resort", "Suites", "Plaza", "Tower", "Residency", "Hotel", "Lodge"]

def AMENITIES_POOL : List String :=
  ["Free WiFi", "Pool", "Spa", "Gym", "Restaurant", "Bar",
   "Room Service", "Airport Shuttle", "Parking", "Breakfast Included",
   "Business Center", "Concierge", "Laundry Service", "Ocean View"]

def LOCATIONS : List String :=
  ["City Center", "Near Airport", "Downtown", "Business District",
   "Old Town", "Waterfront", "Cultural Quarter", "Suburban"]

/-- One hotel-option dict (`total_usd` is literally the string
`"varies by nights"` in the source). -/
structure Hotel where
  name : String
  stars : Int
  rating : Rat
  review_score : String
  price_per_night_usd : Int
  total_usd : String
  guests : Int
  location : String
  amenities : List String
  checkin : String
  checkout : String
  sample : Bool
  note : String
deriving DecidableEq

/-- One iteration of the hotel-generation loop, in the source's exact
drawing order. -/
def genHotel (R : PyRandom S) (city checkin checkout : String) (guests : Int)
    (s : S) : Hotel × S :=
  let pr := pyChoice R PREFIXES "" s
  let su := pyChoice R SUFFIXES "" pr.2
  let name := pr.1 ++ " " ++ city ++ " " ++ su.1
  let u := R.uniform 3 5 su.2
  let rating := pyRound1 u.1
  let st := pyChoice R ([3, 3, 4, 4, 4, 5] : List Int) 0 u.2
  let pc := R.randint 40 350 st.2
  let k := R.randint 3 7 pc.2
  let am := pySample R AMENITIES_POOL k.1.toNat k.2
  let lo := pyChoice R LOCATIONS "" am.2
  ({ name := name,
     stars := st.1,
     rating := rating,
     review_score := showRat1 rating ++ "/5.0",
     price_per_night_usd := pc.1,
     total_usd := "varies by nights",
     guests := guests,
     location := lo.1,
     amenities := am.1,
     checkin := checkin, checkout := checkout,
     sample := true,
     note := "⚠️ SAMPLE DATA – real hotel API not connected" }, lo.2)

/-- The hotel-generation loop. -/
def genHotels (R : PyRandom S) (city checkin checkout : String) (guests : Int) :
    Nat → S → List Hotel × S
  | 0, s => ([], s)
  | n + 1, s =>
    let p := genHotel R city checkin checkout guests s
    let rest := genHotels R city checkin checkout guests n p.2
    (p.1 :: rest.1, rest.2)

/-- The hotel list as generated, before the final price sort. -/
def hotelsRaw (R : PyRandom S) (hsh : String → Int)
    (city checkin checkout : String) (guests : Int) : List Hotel :=
  let s0 := R.seed (hsh (city ++ checkin ++ checkout) % (2 ^ 31))
  let n := R.randint 4 6 s0
  (genHotels R city checkin checkout guests n.1.toNat n.2).1

/-- `search_hotels`. -/
def search_hotels (R : PyRandom S) (hsh : String → Int)
    (city checkin checkout : String) (guests : Int) (s : S) : List Hotel × S :=
  let s0 := R.seed (hsh (city ++ checkin ++ checkout) % (2 ^ 31))
  let n := R.randint 4 6 s0
  let g := genHotels R city checkin checkout guests n.1.toNat n.2
  (sortByKey (fun x => x.price_per_night_usd) g.1, g.2)

/-! ## src/utils/fallbacks.py — static fallback prose -/

/-- `CULTURAL_INFO["tokyo"]`. -/
def culturalInfoTokyo : String :=
  "Tokyo, Japan\x27s bustling capital, seamlessly blends ultramodern innovation with deep-rooted tradition. Originally a small fishing village called Edo, it rose to prominence in 1603 when Tokugawa Ieyasu established his shogunate here, transforming it into the political center of Japan. Today, Tokyo is a city of contrasts — ancient Senso-ji Temple in Asakusa stands minutes from the neon-lit streets of Akihabara, while the serene Meiji Shrine is nestled in a lush forest just steps from the trendy Harajuku district. The city is renowned for its culinary excellence, holding more Michelin stars than any other city in the world. From the orderly chaos of Shibuya Crossing to the tranquil gardens of the Imperial Palace, Tokyo offers an unparalleled travel experience. Its efficient rail network, legendary hospitality (omotenashi), cherry blossom seasons, and vibrant pop culture — from anime to cutting-edge fashion — make it one of the most fascinating destinations on Earth."

/-- `CULTURAL_INFO["udaipur"]`. -/
def culturalInfoUdaipur : String :=
  "Udaipur, known as the \x27City of Lakes\x27 and the \x27Venice of the East,\x27 is one of India\x27s most romantic and picturesque destinations. Founded in 1559 by Maharana Udai Singh II as the capital of the Mewar Kingdom, the city is steeped in Rajput history, valor, and artistic heritage. The magnificent City Palace, rising along the banks of Lake Pichola, is a stunning fusion of Rajasthani and Mughal architecture spanning 400 years of construction. The serene lakes — Pichola, Fateh Sagar, and Udai Sagar — create a magical atmosphere, especially at sunset when the Aravalli hills glow amber. Udaipur\x27s narrow winding streets are filled with vibrant bazaars selling miniature paintings, silver jewelry, and traditional textiles. The city\x27s cultural scene thrives with folk music and dance performances, while its cuisine — dal baati churma, gatte ki sabzi — reflects the rich flavors of Rajasthan. Often chosen as a filming location for its breathtaking beauty, Udaipur remains a jewel of Indian heritage tourism."

/-- `CULTURAL_INFO["new york"]`. -/
def culturalInfoNewYork : String :=
  "New York City, often called \x27The Big Apple,\x27 is a global icon of culture, finance, and ambition. Founded as New Amsterdam by Dutch settlers in 1626, it became New York under British rule and grew into America\x27s largest city and the world\x27s financial capital. The Statue of Liberty, a gift from France in 1886, stands as a universal symbol of freedom and opportunity. Manhattan\x27s skyline — defined by the Empire State Building, One World Trade Center, and countless skyscrapers — is one of the most recognizable in the world. Central Park offers 843 acres of green respite, while neighborhoods like Greenwich Village, Harlem, and Brooklyn each pulse with distinct character. Broadway theaters, world-class museums (The Met, MoMA, Guggenheim), and an unrivaled food scene spanning every cuisine on Earth make NYC a cultural powerhouse. Its subway runs 24/7, its energy never stops, and its diversity — with over 200 languages spoken — makes it truly the crossroads of the world."

/-- `CULTURAL_INFO["london"]`. -/
def culturalInfoLondon : String :=
  "London, the capital of the United Kingdom, is a city where nearly two millennia of history coexist with cutting-edge modernity. Founded as Londinium by the Romans in 43 AD, it has survived plagues, fires, and wars to emerge as one of the world\x27s most influential cities. The Tower of London, built by William the Conqueror in 1066, houses the Crown Jewels, while the Houses of Parliament and Big Ben define the city\x27s iconic skyline along the Thames. London\x27s cultural offerings are extraordinary — the British Museum, Tate Modern, and National Gallery are all free to enter. The city\x27s West End rivals Broadway for theatrical excellence, and its music scene has produced legends from The Beatles to Adele. From the royal pageantry of Buckingham Palace to the eclectic energy of Camden Market, London blends tradition with innovation. Its diverse population, world-class universities, and position as a global financial hub make it a destination of endless discovery."

/-- `CULTURAL_INFO["paris"]`. -/
def culturalInfoParis : String :=
  "Paris, the \x27City of Light,\x27 has captivated the world for centuries with its art, architecture, cuisine, and romance. Founded over 2,000 years ago as Lutetia by Celtic tribes, it became the heart of French civilization and European culture. The Eiffel Tower, built for the 1889 World\x27s Fair, has become the universal symbol of France, while Notre-Dame Cathedral (dating to 1163) represents Gothic architecture at its finest. The Louvre, housing the Mona Lisa and 380,000 other works, is the world\x27s most visited museum. Paris shaped the Enlightenment, the French Revolution, and modern art movements from Impressionism to Surrealism. The Champs-Élysées, Montmartre\x27s artistic quarter, and the Latin Quarter\x27s intellectual cafés each tell different stories of the city\x27s rich tapestry. Parisian cuisine — from croissants and crêpes to Michelin-starred gastronomy — is integral to the UNESCO-recognized French culinary tradition. With its grand boulevards, hidden gardens, and timeless elegance, Paris continues to define sophistication and beauty."

/-- The `CULTURAL_INFO` table as a lookup on its (lower-case) keys. -/
def CULTURAL_INFO : String → Option String
  | "tokyo" => some culturalInfoTokyo
  | "udaipur" => some culturalInfoUdaipur
  | "new york" => some culturalInfoNewYork
  | "london" => some culturalInfoLondon
  | "paris" => some culturalInfoParis
  | _ => none

/-- `ITINERARIES["tokyo"]`. -/
def itineraryTextTokyo : String :=
  "**Day 1: Arrival & Traditional Tokyo**\n- Morning: Arrive at Narita/Haneda Airport. Transfer to hotel and freshen up.\n- Afternoon: Visit **Senso-ji Temple** in Asakusa — Tokyo\x27s oldest temple. Explore Nakamise Shopping Street for souvenirs and snacks.\n- Evening: Walk to **Tokyo Skytree** for stunning sunset city views from 350m.\n- Dining: Try ramen at a local Asakusa ramen shop.\n- Tip: Get a Suica/Pasmo card at the airport for seamless train travel.\n\n**Day 2: Modern Tokyo & Pop Culture**\n- Morning: Explore **Meiji Shrine** and its forested grounds in Harajuku. Walk Takeshita Street for quirky fashion and crêpes.\n- Afternoon: Head to **Shibuya Crossing** — the world\x27s busiest intersection. Visit Shibuya Sky for panoramic views.\n- Evening: Explore **Akihabara** — the electronics and anime capital. Browse multi-story arcades and manga shops.\n- Dining: Conveyor belt sushi (kaiten-zushi) in Shibuya.\n\n**Day 3: Culture & Gardens**\n- Morning: Visit the **Imperial Palace East Gardens** (free entry, closed Mon/Fri). Beautiful traditional gardens.\n- Afternoon: Explore **Ueno Park** — Tokyo National Museum, Ueno Zoo, and seasonal flowers.\n- Evening: Shopping and dining in **Ginza** — Tokyo\x27s upscale district.\n- Dining: Try tempura or tonkatsu at a Ginza restaurant.\n\n**Day 4: Day Trip & Markets**\n- Morning: Take a day trip to **Tsukiji Outer Market** for the freshest sushi breakfast and street food.\n- Afternoon: Visit **teamLab Borderless** (digital art museum) or explore **Odaiba** waterfront.\n- Evening: Stroll through **Shinjuku** — visit the observation deck at Tokyo Metropolitan Government Building (free).\n- Dining: Yakitori (grilled chicken skewers) in Shinjuku\x27s Memory Lane (Omoide Yokocho).\n\n**Day 5: Departure Day**\n- Morning: Last-minute shopping at **Don Quijote** (24-hour store) or visit a local neighborhood.\n- Afternoon: Head to the airport. Consider an ekiben (train bento) for the journey.\n- Tip: Keep JPY coins for temple offerings and vending machines throughout your trip."

/-- `ITINERARIES["udaipur"]`. -/
def itineraryTextUdaipur : String :=
  "**Day 1: Arrival & Lake Pichola**\n- Morning: Arrive in Udaipur. Check into hotel and freshen up.\n- Afternoon: Take a boat ride on **Lake Pichola** — visit Jag Mandir island palace.\n- Evening: Watch the sunset from **Ambrai Ghat** with stunning views of City Palace and Lake Palace.\n- Dining: Rooftop dinner at Ambrai Restaurant overlooking the lake.\n- Tip: Carry sunscreen and stay hydrated — Rajasthan can be very warm.\n\n**Day 2: Palaces & Heritage**\n- Morning: Explore **City Palace** — the majestic complex with museums, courtyards, and lake views (allow 3-4 hours).\n- Afternoon: Visit **Jagdish Temple** — beautiful Indo-Aryan temple dedicated to Lord Vishnu, just outside City Palace.\n- Evening: Attend a traditional **Rajasthani folk dance and music show** at Bagore Ki Haveli.\n- Dining: Try dal baati churma and gatte ki sabzi at a local Rajasthani restaurant.\n\n**Day 3: Gardens, Lakes & Departure**\n- Morning: Visit **Saheliyon-ki-Bari** (Garden of the Maidens) — beautiful fountains and marble elephants.\n- Afternoon: Drive to **Fateh Sagar Lake** and visit Nehru Garden island. Explore the surrounding hills.\n- Evening: Last shopping at Hathi Pol bazaar for miniature paintings, silver jewelry, and textiles.\n- Dining: Farewell dinner with a view of the illuminated City Palace.\n- Tip: Bargain respectfully at bazaars — starting at 50% of asking price is normal."

/-- The `ITINERARIES` table as a lookup on its (lower-case) keys. -/
def ITINERARIES : String → Option String
  | "tokyo" => some itineraryTextTokyo
  | "udaipur" => some itineraryTextUdaipur
  | _ => none

/-- `MARKET_SUMMARIES["japan"]`. -/
def marketSummaryJapan : String :=
  "Japan\x27s financial market is one of the largest and most sophisticated in Asia. The official currency is the Japanese Yen (JPY), managed by the Bank of Japan. The Tokyo Stock Exchange (TSE), established in 1878, is the third-largest stock exchange globally by market capitalization. Its primary index, the **Nikkei 225**, tracks 225 major companies including Toyota, Sony, and SoftBank, while the **TOPIX** index covers all First Section companies. Japan is the world\x27s third-largest economy by GDP and a major global exporter of automobiles, electronics, and machinery. The JPY is considered a safe-haven currency, often strengthening during global economic uncertainty. Japan\x27s monetary policy, characterized by historically low interest rates, significantly influences Asian and global financial markets."

/-- `MARKET_SUMMARIES["india"]`. -/
def marketSummaryIndia : String :=
  "India\x27s financial market has experienced remarkable growth, making it one of the most dynamic emerging markets globally. The official currency is the Indian Rupee (INR), regulated by the Reserve Bank of India. The **Bombay Stock Exchange (BSE)**, established in 1875, is Asia\x27s oldest exchange, with its flagship **SENSEX** index tracking 30 major companies. The **National Stock Exchange (NSE)**, founded in 1992, operates the widely-followed **NIFTY 50** index. India ranks as the world\x27s fifth-largest economy by GDP, driven by IT services, pharmaceuticals, and a massive consumer market of 1.4 billion people. Key listed companies include Reliance Industries, TCS, Infosys, and HDFC Bank. India\x27s growing middle class and digital economy continue to attract significant foreign institutional investment."

/-- `MARKET_SUMMARIES["united states"]`. -/
def marketSummaryUnitedStates : String :=
  "The United States hosts the world\x27s largest and most influential financial markets. The US Dollar (USD) serves as the world\x27s primary reserve currency. The **New York Stock Exchange (NYSE)**, founded in 1792, is the world\x27s largest exchange by market capitalization. The **NASDAQ**, established in 1971, is the second-largest and heavily weighted toward technology companies. Key indices include the **S&P 500** (500 large-cap companies), **Dow Jones Industrial Average** (30 blue-chip stocks), and **NASDAQ Composite**. The US markets set the tone for global trading, with companies like Apple, Microsoft, Amazon, and Nvidia among the most valuable in the world. The Federal Reserve\x27s monetary policy decisions have far-reaching global implications."

/-- `MARKET_SUMMARIES["south korea"]`. -/
def marketSummarySouthKorea : String :=
  "South Korea\x27s financial market reflects its status as Asia\x27s fourth-largest economy. The official currency is the South Korean Won (KRW), overseen by the Bank of Korea. The **Korea Exchange (KRX)**, headquartered in Busan, operates the **KOSPI** index (tracking all common stocks) and the **KOSDAQ** (focused on tech and small-cap firms). South Korea is a global leader in semiconductors, shipbuilding, automobiles, and electronics, with Samsung Electronics, SK Hynix, and Hyundai Motor among its largest listed companies. The country\x27s export-driven economy and strong technology sector make it an important barometer for global trade and tech industry health."

/-- `MARKET_SUMMARIES["china"]`. -/
def marketSummaryChina : String :=
  "China operates the world\x27s second-largest stock market by total capitalization. The official currency is the Chinese Yuan/Renminbi (CNY), managed by the People\x27s Bank of China. Major exchanges include the **Shanghai Stock Exchange (SSE)**, **Shenzhen Stock Exchange (SZSE)**, and the **Hong Kong Stock Exchange (HKEX)**. The SSE Composite Index and Hang Seng Index are closely watched global indicators. China\x27s economy, the world\x27s second-largest by GDP, is driven by manufacturing, technology, and an enormous domestic consumer market. Major listed companies include Alibaba, Tencent, ICBC, and PetroChina. The gradual internationalization of the Yuan and China\x27s Belt and Road Initiative continue to reshape global financial flows."

/-- `MARKET_SUMMARIES["united kingdom"]`. -/
def marketSummaryUnitedKingdom : String :=
  "The United Kingdom is one of the world\x27s leading financial centers, anchored by London\x27s City and Canary Wharf districts. The official currency is the British Pound Sterling (GBP), one of the oldest and most traded currencies globally, managed by the Bank of England (est. 1694). The **London Stock Exchange (LSE)**, founded in 1801, is Europe\x27s largest exchange. Its primary index, the **FTSE 100**, tracks the 100 largest companies by market cap, including Shell, AstraZeneca, HSBC, and Unilever. The **FTSE 250** covers mid-cap firms. London\x27s financial services sector contributes significantly to the UK\x27s GDP, and the city serves as a global hub for foreign exchange trading, insurance (Lloyd\x27s), and asset management."

/-- The `MARKET_SUMMARIES` table as a lookup on its (lower-case) keys. -/
def MARKET_SUMMARIES : String → Option String
  | "japan" => some marketSummaryJapan
  | "india" => some marketSummaryIndia
  | "united states" => some marketSummaryUnitedStates
  | "south korea" => some marketSummarySouthKorea
  | "china" => some marketSummaryChina
  | "united kingdom" => some marketSummaryUnitedKingdom
  | _ => none
/-- `get_fallback_cultural_info`. -/
def get_fallback_cultural_info (city : String) : String :=
  match CULTURAL_INFO (pyStrip (pyLower city)) with
  | some t => t
  | none =>
    city ++ " is a vibrant destination rich in culture, history, and unique experiences. Visitors can explore its historic landmarks, taste authentic local cuisine, wander through colorful markets, and immerse themselves in the traditions that define this remarkable place. From ancient architecture to modern attractions, " ++
    city ++ " offers something for every traveler — whether you seek adventure, relaxation, spiritual enrichment, or culinary discovery. The warmth of its people and the depth of its heritage make " ++
    city ++ " an unforgettable destination that rewards repeated visits."

/-- `get_fallback_itinerary`. -/
def get_fallback_itinerary (city from_city start_date end_date : String)
    (travelers : Int) (budget preferences : String) (attractions : List String) : String :=
  match ITINERARIES (pyStrip (pyLower city)) with
  | some t => t
  | none =>
    let att_text := ((attractions.take 6).map (fun att => "  - " ++ att ++ "\n")).foldl (· ++ ·) ""
    "**Day 1: Arrival & Orientation**\n- Morning: Arrive in " ++ city ++ " from " ++ from_city ++
    ". Transfer to hotel and check in.\n- Afternoon: Take a walking tour of the city center to get oriented. Visit a local café.\n- Evening: Explore the main market area and try local street food.\n- Dining: Traditional local restaurant near your hotel.\n\n**Day 2: Major Attractions**\n- Morning: Visit the top-rated attractions:\n" ++
    att_text ++
    "- Afternoon: Continue exploring cultural and historic sites. Take photos and enjoy the atmosphere.\n- Evening: Relax at a scenic viewpoint or waterfront area.\n- Dining: Try the city\x27s signature dish at a well-reviewed restaurant.\n\n**Day 3: Culture & Shopping**\n- Morning: Visit a local museum or art gallery. Learn about the region\x27s history.\n- Afternoon: Shopping for souvenirs and local crafts. Explore hidden neighborhoods.\n- Evening: Farewell dinner at a rooftop or scenic restaurant.\n\n**Day 4: Departure**\n- Morning: Last-minute sightseeing or shopping.\n- Afternoon: Transfer to airport/station for departure.\n- Tip: Keep local currency for small purchases and tips throughout your trip.\n\n*Budget: " ++
    budget ++ " | Travelers: " ++ toString travelers ++ " | Dates: " ++ start_date ++ " to " ++
    end_date ++ "*\n*Preferences: " ++
    (if strTruthy preferences then preferences else "General sightseeing") ++ "*"

/-- `get_fallback_market_summary` (`index_names` defaults to `None` in the
source, hence the `Option`; `none` and `some []` are both falsy). -/
def get_fallback_market_summary (country currency_name : String)
    (index_names : Option (List String)) : String :=
  match MARKET_SUMMARIES (pyStrip (pyLower country)) with
  | some t => t
  | none =>
    country ++ "\x27s financial market features the " ++
    (if strTruthy currency_name then currency_name else "local currency") ++
    " as its official currency. The country\x27s stock exchanges and major indices (" ++
    (match index_names with
     | some (h :: t) => pyJoin ", " (h :: t)
     | _ => "N/A") ++
    ") play an important role in the regional and global financial landscape. Investors monitor these markets for insights into the country\x27s economic health, trade dynamics, and growth prospects."

/-! ## Result record types for the table-backed adapters -/

/-- One attraction dict.  NO branch of `get_attractions` (curated table,
LLM-parsed, or generic fallback) ever sets a `"sample"` key, so the field
modelling that dict key is `none` on every record the adapter returns. -/
structure Attraction where
  name : String
  category : String
  description : String
  rating : Rat
  sample : Option Bool
deriving DecidableEq

/-- One stock-exchange dict.  Curated table entries have `lat`/`lon` and no
`sample` key; the unknown-country placeholder has `sample: True` and no
`lat`/`lon`. -/
structure ExchangeInfo where
  name : String
  city : String
  lat : Option Rat
  lon : Option Rat
  maps_link : String
  established : String
  description : String
  major_indices : List String
  sample : Option Bool
deriving DecidableEq

/-- One `COUNTRY_INDICES` row (name / ticker / exchange). -/
structure IndexInfo where
  name : String
  ticker : String
  exchange : String
deriving DecidableEq

/-- One `FALLBACK_CURRENCIES` row. -/
structure FallbackCurrency where
  currency_code : String
  currency_name : String
  currency_symbol : String
  capital : String
  latlng : List Rat
deriving DecidableEq

/-- An FX-rate quadruple against the four fixed targets USD/INR/GBP/EUR. -/
structure Rates4 where
  USD : Rat
  INR : Rat
  GBP : Rat
  EUR : Rat
deriving DecidableEq

/-- The `CURATED_ATTRACTIONS` table.  No curated record carries a `sample`
key (see the `Attraction.sample` field comment). -/
def CURATED_ATTRACTIONS : String → Option (List Attraction)
  | "tokyo" => some [
      { name := "Senso-ji Temple", category := "Temple",
        description := "Tokyo\x27s oldest and most significant Buddhist temple in Asakusa.", rating := (4.7 : Rat), sample := none },
      { name := "Shibuya Crossing", category := "Landmark",
        description := "The world\x27s busiest pedestrian crossing, iconic Tokyo experience.", rating := (4.5 : Rat), sample := none },
      { name := "Meiji Shrine", category := "Shrine",
        description := "Serene Shinto shrine surrounded by a lush forest in central Tokyo.", rating := (4.8 : Rat), sample := none },
      { name := "Tokyo Skytree", category := "Observation",
        description := "Tallest tower in Japan (634m) with panoramic city views.", rating := (4.6 : Rat), sample := none },
      { name := "Tsukiji Outer Market", category := "Food",
        description := "World-famous fish market area with incredible street food.", rating := (4.5 : Rat), sample := none },
      { name := "Akihabara", category := "Shopping",
        description := "Electronics and anime/manga hub, vibrant pop-culture district.", rating := (4.4 : Rat), sample := none } ]
  | "udaipur" => some [
      { name := "City Palace", category := "Palace",
        description := "Majestic palace complex on the banks of Lake Pichola.", rating := (4.7 : Rat), sample := none },
      { name := "Lake Pichola", category := "Nature",
        description := "Artificial fresh water lake with stunning palace views.", rating := (4.6 : Rat), sample := none },
      { name := "Jag Mandir", category := "Palace",
        description := "Island palace in Lake Pichola, also known as Lake Garden Palace.", rating := (4.5 : Rat), sample := none },
      { name := "Saheliyon-ki-Bari", category := "Garden",
        description := "Garden of the Maidens with beautiful fountains and marble art.", rating := (4.4 : Rat), sample := none },
      { name := "Jagdish Temple", category := "Temple",
        description := "Indo-Aryan temple dedicated to Lord Vishnu, built in 1651.", rating := (4.5 : Rat), sample := none },
      { name := "Fateh Sagar Lake", category := "Nature",
        description := "Scenic artificial lake surrounded by hills and gardens.", rating := (4.3 : Rat), sample := none } ]
  | "new york" => some [
      { name := "Statue of Liberty", category := "Monument",
        description := "Iconic symbol of freedom on Liberty Island.", rating := (4.7 : Rat), sample := none },
      { name := "Central Park", category := "Park",
        description := "843-acre urban park, the green heart of Manhattan.", rating := (4.8 : Rat), sample := none },
      { name := "Times Square", category := "Landmark",
        description := "Brightly lit commercial hub and entertainment center.", rating := (4.4 : Rat), sample := none },
      { name := "Metropolitan Museum of Art", category := "Museum",
        description := "One of the world\x27s largest and finest art museums.", rating := (4.8 : Rat), sample := none },
      { name := "Brooklyn Bridge", category := "Landmark",
        description := "Iconic hybrid cable-stayed/suspension bridge, opened 1883.", rating := (4.7 : Rat), sample := none },
      { name := "Empire State Building", category := "Observation",
        description := "Art Deco skyscraper with observation decks on 86th and 102nd floors.", rating := (4.6 : Rat), sample := none } ]
  | "london" => some [
      { name := "Tower of London", category := "Castle",
        description := "Historic castle and UNESCO site, home to the Crown Jewels.", rating := (4.7 : Rat), sample := none },
      { name := "British Museum", category := "Museum",
        description := "World-renowned museum of human history and culture.", rating := (4.8 : Rat), sample := none },
      { name := "Buckingham Palace", category := "Palace",
        description := "Official residence of the British monarch.", rating := (4.6 : Rat), sample := none },
      { name := "Big Ben & Houses of Parliament", category := "Landmark",
        description := "Iconic clock tower and Gothic Revival Parliament buildings.", rating := (4.7 : Rat), sample := none },
      { name := "London Eye", category := "Observation",
        description := "135m tall observation wheel on the South Bank of the Thames.", rating := (4.5 : Rat), sample := none },
      { name := "Hyde Park", category := "Park",
        description := "One of London\x27s largest royal parks, 350 acres of green space.", rating := (4.6 : Rat), sample := none } ]
  | "paris" => some [
      { name := "Eiffel Tower", category := "Landmark",
        description := "Iconic iron lattice tower, symbol of Paris.", rating := (4.7 : Rat), sample := none },
      { name := "Louvre Museum", category := "Museum",
        description := "World\x27s largest art museum, home to the Mona Lisa.", rating := (4.8 : Rat), sample := none },
      { name := "Notre-Dame Cathedral", category := "Cathedral",
        description := "Medieval Catholic cathedral, masterpiece of Gothic architecture.", rating := (4.7 : Rat), sample := none },
      { name := "Champs-Élysées", category := "Street",
        description := "Famous avenue known for luxury shops, cafés, and theatres.", rating := (4.5 : Rat), sample := none },
      { name := "Sacré-Cœur Basilica", category := "Church",
        description := "White-domed basilica at the summit of Montmartre.", rating := (4.6 : Rat), sample := none },
      { name := "Musée d\x27Orsay", category := "Museum",
        description := "Impressionist masterpieces housed in a former railway station.", rating := (4.7 : Rat), sample := none } ]
  | _ => none

/-- The `EXCHANGES` table (`EXCHANGES.get(country_lower, [])`).  Table
entries carry no `sample` key. -/
def EXCHANGES : String → List ExchangeInfo
  | "japan" => [
      { name := "Tokyo Stock Exchange (TSE)", city := "Tokyo",
        lat := some (35.6815 : Rat), lon := some (139.774 : Rat),
        maps_link := "https://www.google.com/maps/search/?api=1&query=Tokyo+Stock+Exchange",
        established := "1878",
        description := "Third-largest stock exchange in the world by market capitalization.",
        major_indices := ["Nikkei 225", "TOPIX"], sample := none } ]
  | "india" => [
      { name := "Bombay Stock Exchange (BSE)", city := "Mumbai",
        lat := some (18.93 : Rat), lon := some (72.8347 : Rat),
        maps_link := "https://www.google.com/maps/search/?api=1&query=Bombay+Stock+Exchange+Mumbai",
        established := "1875",
        description := "Asia\x27s oldest stock exchange, located at Dalal Street, Mumbai.",
        major_indices := ["BSE SENSEX"], sample := none },
      { name := "National Stock Exchange (NSE)", city := "Mumbai",
        lat := some (19.0544 : Rat), lon := some (72.8407 : Rat),
        maps_link := "https://www.google.com/maps/search/?api=1&query=National+Stock+Exchange+Mumbai",
        established := "1992",
        description := "India\x27s leading stock exchange by trading volume.",
        major_indices := ["NIFTY 50"], sample := none } ]
  | "united states" => [
      { name := "New York Stock Exchange (NYSE)", city := "New York",
        lat := some (40.7069 : Rat), lon := some (-74.0113 : Rat),
        maps_link := "https://www.google.com/maps/search/?api=1&query=New+York+Stock+Exchange",
        established := "1792",
        description := "World\x27s largest stock exchange by market capitalization.",
        major_indices := ["S&P 500", "Dow Jones"], sample := none },
      { name := "NASDAQ", city := "New York",
        lat := some (40.7568 : Rat), lon := some (-73.9862 : Rat),
        maps_link := "https://www.google.com/maps/search/?api=1&query=NASDAQ+MarketSite+Times+Square",
        established := "1971",
        description := "Second-largest stock exchange globally, tech-heavy.",
        major_indices := ["NASDAQ Composite"], sample := none } ]
  | "south korea" => [
      { name := "Korea Exchange (KRX)", city := "Busan",
        lat := some (35.1028 : Rat), lon := some (129.0322 : Rat),
        maps_link := "https://www.google.com/maps/search/?api=1&query=Korea+Exchange+Busan",
        established := "2005",
        description := "Sole securities exchange operator in South Korea.",
        major_indices := ["KOSPI", "KOSDAQ"], sample := none } ]
  | "china" => [
      { name := "Shanghai Stock Exchange (SSE)", city := "Shanghai",
        lat := some (31.2328 : Rat), lon := some (121.4871 : Rat),
        maps_link := "https://www.google.com/maps/search/?api=1&query=Shanghai+Stock+Exchange",
        established := "1990",
        description := "Largest stock exchange in China and one of the largest in Asia.",
        major_indices := ["SSE Composite"], sample := none },
      { name := "Shenzhen Stock Exchange (SZSE)", city := "Shenzhen",
        lat := some (22.5362 : Rat), lon := some (114.0579 : Rat),
        maps_link := "https://www.google.com/maps/search/?api=1&query=Shenzhen+Stock+Exchange",
        established := "1990",
        description := "Second stock exchange in mainland China, known for tech listings.",
        major_indices := ["Shenzhen Composite"], sample := none },
      { name := "Hong Kong Stock Exchange (HKEX)", city := "Hong Kong",
        lat := some (22.2864 : Rat), lon := some (114.1587 : Rat),
        maps_link := "https://www.google.com/maps/search/?api=1&query=Hong+Kong+Stock+Exchange",
        established := "1891",
        description := "One of Asia\x27s largest exchanges, gateway for international investors to China.",
        major_indices := ["Hang Seng Index"], sample := none } ]
  | "united kingdom" => [
      { name := "London Stock Exchange (LSE)", city := "London",
        lat := some (51.5144 : Rat), lon := some (-0.0987 : Rat),
        maps_link := "https://www.google.com/maps/search/?api=1&query=London+Stock+Exchange",
        established := "1801",
        description := "One of the oldest and largest stock exchanges in Europe.",
        major_indices := ["FTSE 100", "FTSE 250"], sample := none } ]
  | _ => []

/-- The `COUNTRY_INDICES` table (`COUNTRY_INDICES.get(country_lower, [])`). -/
def COUNTRY_INDICES : String → List IndexInfo
  | "japan" => [⟨"Nikkei 225", "^N225", "Tokyo Stock Exchange"⟩, ⟨"TOPIX", "^TOPX", "Tokyo Stock Exchange"⟩]
  | "india" => [⟨"BSE SENSEX", "^BSESN", "Bombay Stock Exchange"⟩, ⟨"NIFTY 50", "^NSEI", "National Stock Exchange"⟩]
  | "united states" => [⟨"S&P 500", "^GSPC", "New York Stock Exchange"⟩, ⟨"Dow Jones", "^DJI", "New York Stock Exchange"⟩, ⟨"NASDAQ Composite", "^IXIC", "NASDAQ"⟩]
  | "south korea" => [⟨"KOSPI", "^KS11", "Korea Exchange"⟩, ⟨"KOSDAQ", "^KQ11", "Korea Exchange"⟩]
  | "china" => [⟨"SSE Composite", "000001.SS", "Shanghai Stock Exchange"⟩, ⟨"Shenzhen Composite", "399001.SZ", "Shenzhen Stock Exchange"⟩, ⟨"Hang Seng", "^HSI", "Hong Kong Stock Exchange"⟩]
  | "united kingdom" => [⟨"FTSE 100", "^FTSE", "London Stock Exchange"⟩, ⟨"FTSE 250", "^FTMC", "London Stock Exchange"⟩]
  | _ => []

/-- The `FALLBACK_VALUES` table (`FALLBACK_VALUES.get(ticker, 0.0)`). -/
def FALLBACK_VALUES : String → Rat
  | "^N225" => (38500.0 : Rat)
  | "^TOPX" => (2700.0 : Rat)
  | "^BSESN" => (73500.0 : Rat)
  | "^NSEI" => (22200.0 : Rat)
  | "^GSPC" => (5100.0 : Rat)
  | "^DJI" => (39200.0 : Rat)
  | "^IXIC" => (16100.0 : Rat)
  | "^KS11" => (2650.0 : Rat)
  | "^KQ11" => (870.0 : Rat)
  | "000001.SS" => (3050.0 : Rat)
  | "399001.SZ" => (9500.0 : Rat)
  | "^HSI" => (17200.0 : Rat)
  | "^FTSE" => (7700.0 : Rat)
  | "^FTMC" => (19800.0 : Rat)
  | _ => 0

/-- The `FALLBACK_CURRENCIES` table. -/
def FALLBACK_CURRENCIES : String → Option FallbackCurrency
  | "japan" => some ⟨"JPY", "Japanese yen", "¥", "Tokyo", [(36.0 : Rat), (138.0 : Rat)]⟩
  | "india" => some ⟨"INR", "Indian rupee", "₹", "New Delhi", [(20.0 : Rat), (77.0 : Rat)]⟩
  | "united states" => some ⟨"USD", "United States dollar", "$", "Washington, D.C.", [(38.0 : Rat), (-97.0 : Rat)]⟩
  | "south korea" => some ⟨"KRW", "South Korean won", "₩", "Seoul", [(37.0 : Rat), (127.5 : Rat)]⟩
  | "china" => some ⟨"CNY", "Chinese yuan", "¥", "Beijing", [(35.0 : Rat), (105.0 : Rat)]⟩
  | "united kingdom" => some ⟨"GBP", "British pound sterling", "£", "London", [(54.0 : Rat), (-2.0 : Rat)]⟩
  | _ => none

/-- The `FALLBACK_RATES` table. -/
def FALLBACK_RATES : String → Option Rates4
  | "JPY" => some ⟨(0.0067 : Rat), (0.56 : Rat), (0.0053 : Rat), (0.0062 : Rat)⟩
  | "INR" => some ⟨(0.012 : Rat), (1.0 : Rat), (0.0095 : Rat), (0.011 : Rat)⟩
  | "USD" => some ⟨(1.0 : Rat), (83.5 : Rat), (0.79 : Rat), (0.92 : Rat)⟩
  | "KRW" => some ⟨(0.00075 : Rat), (0.063 : Rat), (0.00059 : Rat), (0.00069 : Rat)⟩
  | "CNY" => some ⟨(0.14 : Rat), (11.5 : Rat), (0.11 : Rat), (0.13 : Rat)⟩
  | "GBP" => some ⟨(1.27 : Rat), (105.8 : Rat), (1.0 : Rat), (1.17 : Rat)⟩
  | _ => none
/-! ## src/tools/places.py -/

/-- The prompt sent to the gateway for non-curated cities. -/
def attractionsPrompt (city : String) : String :=
  "List the top 6 tourist attractions in " ++ city ++ ". \nFor each, provide: name, category (e.g., Temple, Museum, Park, Landmark), \na one-sentence description, and an approximate rating out of 5.\nFormat as a numbered list like:\n1. Name | Category | Description | Rating\n"

/-- The per-line parse of the pipe-delimited LLM answer. -/
def parseAttractionLine (line : String) : Option Attraction :=
  let l := pyStrip line
  if l.data = [] then none
  else if (l.data.headD ' ').isDigit = false then none
  else
    let l2 := pyStrip (pyAfterFirstDot l)
    let parts := (pySplitChar '|' l2).map pyStrip
    if parts.length ≥ 3 then
      some { name := parts.getD 0 "", category := parts.getD 1 "",
             description := parts.getD 2 "",
             rating :=
               if parts.length ≥ 4 then
                 match pyFloat? (pyStrip (pyReplace (parts.getD 3 "") "/5" "")) with
                 | some q => q
                 | none => (4.5 : Rat)
               else (4.5 : Rat),
             sample := none }
    else none

/-- The final generic attraction set. -/
def genericAttractions (city : String) : List Attraction :=
  [ { name := city ++ " City Center", category := "Landmark",
      description := "Explore the vibrant city center of " ++ city ++ ".",
      rating := (4.3 : Rat), sample := none },
    { name := city ++ " Historic District", category := "Heritage",
      description := "Walk through the historical areas of " ++ city ++ ".",
      rating := (4.4 : Rat), sample := none },
    { name := city ++ " Local Market", category := "Market",
      description := "Experience local culture at " ++ city ++ "\x27s famous markets.",
      rating := (4.2 : Rat), sample := none },
    { name := city ++ " Museum", category := "Museum",
      description := "Discover the art and history of " ++ city ++ ".",
      rating := (4.5 : Rat), sample := none },
    { name := city ++ " Park/Garden", category := "Park",
      description := "Relax in the beautiful green spaces of " ++ city ++ ".",
      rating := (4.3 : Rat), sample := none } ]

/-- `get_attractions`: curated table, else LLM parse, else generic set.  The
`raise ValueError` on an `Error`-prefixed response is caught by the
enclosing `except`, which falls through to the generic set. -/
def get_attractions (L : LLMEnv) (city : String) : List Attraction :=
  match CURATED_ATTRACTIONS (pyStrip (pyLower city)) with
  | some l => l
  | none =>
    let response := ask_gemini L (attractionsPrompt city)
    if pyStartsWith response "Error" || pyStartsWith response "LLM Error" then
      genericAttractions city
    else
      let attractions := (pySplitChar '\n' (pyStrip response)).filterMap parseAttractionLine
      if attractions.isEmpty then genericAttractions city else attractions

/-! ## src/tools/currency_fx.py -/

/-- The currency value object inside `data[0]["currencies"]`. -/
structure CurrencyEntry where
  name : Option String
  symbol : Option String

/-- Fields of `data[0]` read by `get_currency_info`. -/
structure RestCountry where
  nameCommon : Option String
  currencies : List (String × CurrencyEntry)
  capital : Option (List String)
  latlng : Option (List Rat)
  flag : Option String

/-- Environment of `get_currency_info`: the REST Countries round-trip. -/
structure CurrencyEnv where
  call : String → Except String (List RestCountry)

/-- Result shape of `get_currency_info` (`note` absent on live success). -/
structure CurrencyInfo where
  country : String
  currency_code : String
  currency_name : String
  currency_symbol : String
  capital : String
  latlng : List Rat
  flag : String
  sample : Bool
  note : Option String
deriving DecidableEq

/-- `get_currency_info`: live lookup, else built-in table, else the
`"N/A"` / `"Country not found"` placeholder. -/
def get_currency_info (env : CurrencyEnv) (country : String) : CurrencyInfo :=
  let live : Option CurrencyInfo :=
    match env.call country with
    | .error _ => none
    | .ok data =>
      match data.head? with
      | none => none
      | some c =>
        match c.currencies.head? with
        | none => none
        | some (code, cur) =>
          some { country := c.nameCommon.getD country,
                 currency_code := code,
                 currency_name := cur.name.getD "Unknown",
                 currency_symbol := cur.symbol.getD "",
                 capital :=
                   match c.capital with
                   | some (h :: _) => h
                   | _ => "Unknown",
                 latlng := c.latlng.getD [0, 0],
                 flag := c.flag.getD "",
                 sample := false,
                 note := none }
  match live with
  | some r => r
  | none =>
    match FALLBACK_CURRENCIES (pyStrip (pyLower country)) with
    | some fb =>
      { country := country, currency_code := fb.currency_code,
        currency_name := fb.currency_name, currency_symbol := fb.currency_symbol,
        capital := fb.capital, latlng := fb.latlng, flag := "",
        sample := true, note := some "Fallback data used" }
    | none =>
      { country := country, currency_code := "N/A", currency_name := "Unknown",
        currency_symbol := "", capital := "Unknown", latlng := [0, 0], flag := "",
        sample := true, note := some "Country not found" }

/-- Fields of the exchangerate-api payload read by `get_fx_rates`. -/
structure FxApiData where
  result : Option String
  conversion_rates : List (String × Rat)
  time_last_update_utc : Option String

/-- Environment of `get_fx_rates`: the `EXCHANGERATE_API_KEY` value and the
HTTP round-trip. -/
structure FxEnv where
  apiKey : String
  call : String → Except String FxApiData

/-- Result shape of `get_fx_rates` (`note` absent on live success). -/
structure FxRates where
  base : String
  rates : Rates4
  last_updated : String
  sample : Bool
  note : Option String
deriving DecidableEq

/-- `all_rates.get(tc, 0.0)`. -/
def lookupRate (l : List (String × Rat)) (k : String) : Rat := ((l.lookup k).getD 0)

/-- `get_fx_rates`. -/
def get_fx_rates (env : FxEnv) (currency_code : String) : FxRates :=
  if env.apiKey = "" then
    match FALLBACK_RATES currency_code with
    | some r =>
      { base := currency_code, rates := r, last_updated := "N/A", sample := true,
        note := some "SAMPLE DATA - EXCHANGERATE_API_KEY not set" }
    | none =>
      { base := currency_code, rates := ⟨0, 0, 0, 0⟩, last_updated := "N/A", sample := true,
        note := some "Currency not found in fallback data" }
  else
    let live : Option FxRates :=
      match env.call currency_code with
      | .error _ => none
      | .ok data =>
        if data.result = some "success" then
          some { base := currency_code,
                 rates := ⟨lookupRate data.conversion_rates "USD",
                           lookupRate data.conversion_rates "INR",
                           lookupRate data.conversion_rates "GBP",
                           lookupRate data.conversion_rates "EUR"⟩,
                 last_updated := data.time_last_update_utc.getD "Unknown",
                 sample := false, note := none }
        else none
    match live with
    | some r => r
    | none =>
      match FALLBACK_RATES currency_code with
      | some r =>
        { base := currency_code, rates := r, last_updated := "N/A", sample := true,
          note := some "Fallback data - API error" }
      | none =>
        { base := currency_code, rates := ⟨0, 0, 0, 0⟩, last_updated := "N/A", sample := true,
          note := some "Currency not found" }

/-! ## src/tools/exchanges.py -/

/-- The unknown-country placeholder entry (the only exchange record carrying
a `sample` key). -/
def genericExchange (country : String) : ExchangeInfo :=
  { name := country ++ " Stock Exchange", city := "Unknown", lat := none, lon := none,
    maps_link := "https://www.google.com/maps/search/?api=1&query=" ++
                 pyReplace country " " "+" ++ "+Stock+Exchange",
    established := "N/A",
    description := "Stock exchange information for " ++ country ++ " not in database.",
    major_indices := [], sample := some true }

/-- `get_exchange_info`. -/
def get_exchange_info (country : String) : List ExchangeInfo :=
  match EXCHANGES (pyStrip (pyLower country)) with
  | [] => [genericExchange country]
  | l => l

/-! ## src/tools/stocks.py -/

/-- Environment of `get_stock_indices`: the yfinance `history("5d")["Close"]`
column per ticker (or a raised exception). -/
structure StocksEnv where
  history : String → Except String (List Rat)

/-- One index-result dict.  The unknown-country entry has only `error` and
`sample`; every per-ticker entry has the name/ticker/value fields. -/
structure IndexEntry where
  error : Option String
  index_name : Option String
  ticker : Option String
  exchange : Option String
  value : Option Rat
  change : Option Rat
  change_pct : Option Rat
  sample : Bool
  note : Option String
deriving DecidableEq

/-- The per-ticker fallback entry built in the `except` branch. -/
def stockFallbackEntry (info : IndexInfo) (e : String) : IndexEntry :=
  { error := none, index_name := some info.name, ticker := some info.ticker,
    exchange := some info.exchange, value := some (FALLBACK_VALUES info.ticker),
    change := some 0, change_pct := some 0, sample := true,
    note := some ("Fallback data - " ++ pyTake e 50) }

/-- One iteration of the ticker loop (the `raise ValueError` on an empty
history and the `ZeroDivisionError` on `prev == 0` both land in the same
`except` branch). -/
def stockEntry (env : StocksEnv) (info : IndexInfo) : IndexEntry :=
  match env.history info.ticker with
  | .error e => stockFallbackEntry info e
  | .ok closes =>
    match closes.getLast? with
    | none => stockFallbackEntry info "No data returned"
    | some last =>
      let current := pyRound2 last
      if closes.length ≥ 2 then
        let prev := closes.getD (closes.length - 2) 0
        if prev = 0 then stockFallbackEntry info "float division by zero"
        else
          let change := pyRound2 (current - prev)
          { error := none, index_name := some info.name, ticker := some info.ticker,
            exchange := some info.exchange, value := some current, change := some change,
            change_pct := some (pyRound2 (change / prev * 100)), sample := false, note := none }
      else
        { error := none, index_name := some info.name, ticker := some info.ticker,
          exchange := some info.exchange, value := some current, change := some 0,
          change_pct := some 0, sample := false, note := none }

/-- `get_stock_indices`. -/
def get_stock_indices (env : StocksEnv) (country : String) : List IndexEntry :=
  match COUNTRY_INDICES (pyStrip (pyLower country)) with
  | [] =>
    [{ error := some ("No index data available for " ++ country), index_name := none,
       ticker := none, exchange := none, value := none, change := none, change_pct := none,
       sample := true, note := none }]
  | l => l.map (stockEntry env)

/-! ## src/utils/agent_trip.py and src/utils/agent_market.py -/

/-- Output values the two orchestrators record in the trace (Python `Any`,
restricted to the shapes that occur). -/
inductive TraceOut where
  | s (text : String)
  | weather (w : CurrentWeather)
  | forecast (f : List ForecastDay)
  | flights (l : List Flight)
  | hotels (l : List Hotel)
  | attractions (l : List Attraction)
  | currency (c : CurrencyInfo)
  | fx (r : FxRates)
  | exchanges (l : List ExchangeInfo)
  | indices (l : List IndexEntry)
deriving DecidableEq

/-- `_call_tool` (textually identical in both agent files): start a trace
entry, run the tool, finalize with its result — or, when the invocation
raises `e`, finalize with the error and yield the `{"error": e}` section
marker (modelled as `Except.error e`).  The handle passed to `end_call` is
the one `start_call` just returned, always in range, so the finalization is
`finalizeCall` (the in-range branch of `end_call`).  `clk` assigns each
`time.time()` capture its value; `k` counts captures so far. -/
def callTool (clk : Nat → Rat) (tr : MCPTrace TraceOut) (k : Nat) (name : String)
    (inputs : List (String × PyVal)) (res : Except String α) (enc : α → TraceOut) :
    Except String α × MCPTrace TraceOut × Nat :=
  let p := tr.start_call name inputs (clk k)
  match res with
  | .ok v => (.ok v, finalizeCall p.1 p.2 (some (enc v)) none (clk (k + 1)), k + 2)
  | .error e => (.error e, finalizeCall p.1 p.2 none (some e) (clk (k + 1)), k + 2)

/-- An LLM orchestration step — steps 1 and 7 of the Trip Agent and step 5
of the Market Agent have this exact shape: record the call; on the sentinel
substitute the given fallback and log `"Used pre-written fallback ..."`;
otherwise log a 200-character output preview; on a raised exception record
the error and substitute the same fallback (the `except` branch). -/
def llmStep (clk : Nat → Rat) (tr : MCPTrace TraceOut) (k : Nat) (name : String)
    (inputs : List (String × PyVal)) (res : Except String String) (fallback : String) :
    String × MCPTrace TraceOut × Nat :=
  let p := tr.start_call name inputs (clk k)
  match res with
  | .error e => (fallback, finalizeCall p.1 p.2 none (some e) (clk (k + 1)), k + 2)
  | .ok t =>
    if t = "__LLM_UNAVAILABLE__" then
      (fallback,
       finalizeCall p.1 p.2 (some (.s "Used pre-written fallback (LLM unavailable)")) none
         (clk (k + 1)),
       k + 2)
    else
      (t, finalizeCall p.1 p.2 (some (.s (pyTake t 200 ++ "..."))) none (clk (k + 1)), k + 2)

/-- The behaviours a Trip Agent run invokes through `TOOL_REGISTRY` /
`ask_gemini`, one `Except`-valued slot per call site (`error e` models the
invocation raising `e`). -/
structure TripTools where
  llm : String → Except String String
  current_weather : String → Except String CurrentWeather
  forecast : String → Except String (List ForecastDay)
  flights : String → String → String → Int → Except String (List Flight)
  hotels : String → String → String → Int → Except String (List Hotel)
  attractions : String → Except String (List Attraction)

/-- The `results["meta"]` record of the Trip Agent. -/
structure TripMeta where
  from_city : String
  to_city : String
  start_date : String
  end_date : String
  budget : String
  travelers : Int
  preferences : String
deriving DecidableEq

/-- The `results` mapping returned by `run_trip_agent`.  A tool section
holds `Except.error e` when the step raised and the section carries the
`{"error": e}` marker instead of data. -/
structure TripResponse where
  cultural_info : String
  current_weather : Except String CurrentWeather
  forecast : Except String (List ForecastDay)
  flights : Except String (List Flight)
  hotels : Except String (List Hotel)
  attractions : Except String (List Attraction)
  itinerary : String
  trace : MCPTrace TraceOut
  meta : TripMeta

/-- `culture_prompt`. -/
def culturePrompt (to_city : String) : String :=
  "Write a concise but rich paragraph (150-200 words) about " ++ to_city ++
  " \ncovering its cultural significance, historical highlights, and what makes it \na unique travel destination. Include notable facts, traditions, and atmosphere."

/-- `itin_prompt`. -/
def itinPrompt (to_city from_city start_date end_date : String) (travelers : Int)
    (budget preferences : String) (attractions_names forecastDescs : List String) : String :=
  "Create a detailed day-by-day travel itinerary for a trip to " ++ to_city ++
  ".\n\nTrip Details:\n- From: " ++ from_city ++
  "\n- Dates: " ++ start_date ++ " to " ++ end_date ++
  "\n- Travelers: " ++ toString travelers ++
  "\n- Budget: " ++ budget ++
  "\n- Preferences: " ++ (if strTruthy preferences then preferences else "General sightseeing") ++
  "\n\nAvailable Attractions: " ++ pyJoin ", " attractions_names ++
  "\n\nWeather forecast shows: " ++ pyJoin ", " forecastDescs ++
  "\n\nFormat each day as:\n**Day N: Title**\n- Morning: activity\n- Afternoon: activity  \n- Evening: activity\n- Dining suggestion\n\nInclude practical tips for each day. Make it detailed and useful."

/-- `run_trip_agent`: the fixed 7-step pipeline. -/
def run_trip_agent (T : TripTools) (clk : Nat → Rat)
    (from_city to_city start_date end_date : String)
    (budget : String) (travelers : Int) (preferences : String) : TripResponse :=
  let tr0 : MCPTrace TraceOut := ⟨[]⟩
  let s1 := llmStep clk tr0 0 "llm_cultural_paragraph"
      [("city", .str to_city), ("prompt_type", .str "cultural_historic_info")]
      (T.llm (culturePrompt to_city)) (get_fallback_cultural_info to_city)
  let s2 := callTool clk s1.2.1 s1.2.2 "get_current_weather" [("city", .str to_city)]
      (T.current_weather to_city) TraceOut.weather
  let s3 := callTool clk s2.2.1 s2.2.2 "get_weather_forecast" [("city", .str to_city)]
      (T.forecast to_city) TraceOut.forecast
  let s4 := callTool clk s3.2.1 s3.2.2 "search_flights"
      [("from_city", .str from_city), ("to_city", .str to_city),
       ("date", .str start_date), ("travelers", .int travelers)]
      (T.flights from_city to_city start_date travelers) TraceOut.flights
  let s5 := callTool clk s4.2.1 s4.2.2 "search_hotels"
      [("city", .str to_city), ("checkin", .str start_date),
       ("checkout", .str end_date), ("guests", .int travelers)]
      (T.hotels to_city start_date end_date travelers) TraceOut.hotels
  let s6 := callTool clk s5.2.1 s5.2.2 "get_attractions" [("city", .str to_city)]
      (T.attractions to_city) TraceOut.attractions
  let attractions_names :=
    match s6.1 with
    | .ok l => l.map (fun a => a.name)
    | .error _ => []
  let forecastDescs :=
    match s3.1 with
    | .ok l => (l.take 3).map (fun f => f.description)
    | .error _ => []
  let s7 := llmStep clk s6.2.1 s6.2.2 "llm_day_itinerary"
      [("city", .str to_city), ("dates", .str (start_date ++ " to " ++ end_date)),
       ("prompt_type", .str "day_by_day_plan")]
      (T.llm (itinPrompt to_city from_city start_date end_date travelers budget preferences
                attractions_names forecastDescs))
      (get_fallback_itinerary to_city from_city start_date end_date travelers budget
        preferences attractions_names)
  { cultural_info := s1.1,
    current_weather := s2.1, forecast := s3.1, flights := s4.1, hotels := s5.1,
    attractions := s6.1, itinerary := s7.1, trace := s7.2.1,
    meta := ⟨from_city, to_city, start_date, end_date, budget, travelers, preferences⟩ }

/-- The behaviours a Market Agent run invokes. -/
structure MarketTools where
  llm : String → Except String String
  currency : String → Except String CurrencyInfo
  fx : String → Except String FxRates
  exchange : String → Except String (List ExchangeInfo)
  indices : String → Except String (List IndexEntry)

/-- The `results["meta"]` record of the Market Agent. -/
structure MarketMeta where
  country : String
  extra_query : String
deriving DecidableEq

/-- The `results` mapping returned by `run_market_agent`. -/
structure MarketResponse where
  currency_info : Except String CurrencyInfo
  fx_rates : Except String FxRates
  exchanges : Except String (List ExchangeInfo)
  indices : Except String (List IndexEntry)
  market_summary : String
  trace : MCPTrace TraceOut
  meta : MarketMeta

/-- `summary_prompt`. -/
def summaryPrompt (country currency_name : String) (idx_names : List String)
    (extra_query : String) : String :=
  "Write a brief paragraph (100-150 words) about " ++ country ++
  "\x27s financial market landscape.\nCover: the official currency (" ++ currency_name ++
  "), \nmajor stock exchanges, key indices (" ++ pyJoin ", " idx_names ++
  "), and the country\x27s position \nin global financial markets. \n" ++
  (if strTruthy extra_query then "Additional context: " ++ extra_query else "") ++
  "\nKeep it factual and informative."

/-- `run_market_agent`: the fixed 5-step pipeline. -/
def run_market_agent (T : MarketTools) (clk : Nat → Rat) (country : String)
    (extra_query : String) : MarketResponse :=
  let tr0 : MCPTrace TraceOut := ⟨[]⟩
  let s1 := callTool clk tr0 0 "get_currency_info" [("country", .str country)]
      (T.currency country) TraceOut.currency
  let currency_code :=
    match s1.1 with
    | .ok c => c.currency_code
    | .error _ => "USD"
  let s2 := callTool clk s1.2.1 s1.2.2 "get_fx_rates" [("currency_code", .str currency_code)]
      (T.fx currency_code) TraceOut.fx
  let s3 := callTool clk s2.2.1 s2.2.2 "get_exchange_info" [("country", .str country)]
      (T.exchange country) TraceOut.exchanges
  let s4 := callTool clk s3.2.1 s3.2.2 "get_stock_indices" [("country", .str country)]
      (T.indices country) TraceOut.indices
  let idx_names :=
    match s4.1 with
    | .ok l => l.map (fun i => i.index_name.getD "")
    | .error _ => []
  let currency_name :=
    match s1.1 with
    | .ok c => c.currency_name
    | .error _ => "N/A"
  let s5 := llmStep clk s4.2.1 s4.2.2 "llm_market_summary"
      [("country", .str country), ("prompt_type", .str "market_overview")]
      (T.llm (summaryPrompt country currency_name idx_names extra_query))
      (get_fallback_market_summary country currency_name (some idx_names))
  { currency_info := s1.1, fx_rates := s2.1, exchanges := s3.1, indices := s4.1,
    market_summary := s5.1, trace := s5.2.1, meta := ⟨country, extra_query⟩ }

/-- The concrete Trip Agent tool set: the embedded adapters wired to given
external environments (no adapter invocation raises — each tool absorbs its
failures internally). -/
def realTripTools (L : LLMEnv) (W : WeatherEnv) (R : PyRandom S) (hsh : String → Int)
    (sFl sHo : S) : TripTools :=
  { llm := fun p => .ok (ask_gemini L p),
    current_weather := fun city => .ok (get_current_weather W city),
    forecast := fun city => .ok (get_weather_forecast W city),
    flights := fun f t d tv => .ok ((search_flights R hsh f t d tv sFl).1),
    hotels := fun c ci co g => .ok ((search_hotels R hsh c ci co g sHo).1),
    attractions := fun city => .ok (get_attractions L city) }

/-- The concrete Market Agent tool set. -/
def realMarketTools (L : LLMEnv) (C : CurrencyEnv) (F : FxEnv) (St : StocksEnv) : MarketTools :=
  { llm := fun p => .ok (ask_gemini L p),
    currency := fun c => .ok (get_currency_info C c),
    fx := fun c => .ok (get_fx_rates F c),
    exchange := fun c => .ok (get_exchange_info c),
    indices := fun c => .ok (get_stock_indices St c) }

/-- An LLM environment in which neither credential variable is set
(`GROQ_API_KEY` and `GOOGLE_API_KEY` both read as `""`); the SDK round-trip
behaviours are irrelevant and stay arbitrary. -/
def noCredLLM (gCall gmCall : String → Except String (Option String)) (hasG : Bool) : LLMEnv :=
  { groq := { apiKey := "", call := gCall },
    gemini := { hasGoogle := hasG, apiKey := "", call := gmCall } }

/-! ## Auxiliary definitions used by the statements below -/

/-- A trace in which every recorded call has been finalized (no entry left
`pending`). -/
def noPendingTrace (tr : MCPTrace ω) : Prop := ∀ c ∈ tr.calls, c.status ≠ "pending"

/-- A tiny linear-congruential step, used to build one concrete instance of
the abstract generator interface for evaluation. -/
def lcgNext (s : Nat) : Nat := (s * 1664525 + 1013904223) % 4294967296

/-- One concrete `PyRandom` instance (any deterministic instance makes the
generator claims evaluable; the Mersenne Twister itself is not modelled). -/
def toyRandom : PyRandom Nat :=
  { seed := fun i => i.toNat % 4294967296,
    randint := fun a b s => (a + (Int.ofNat (s % ((b - a + 1).toNat.max 1))), lcgNext s),
    choiceIdx := fun n s => (s % n.max 1, lcgNext s),
    weightedIdx := fun w s => (s % (w.length.max 1), lcgNext s),
    sampleIdx := fun n k s => ((List.range k).map (fun i => (s + i) % n.max 1), lcgNext s),
    uniform := fun a b s => (a + (b - a) * ((s % 1000 : Nat) : Rat) / 1000, lcgNext s) }

/-- One concrete stand-in for Python's per-process string `hash`. -/
def toyHash (s : String) : Int := (s.data.map Char.toNat).foldl (fun a c => a * 31 + c) 7

/-- An LLM environment with both credentials unset and the network down. -/
def demoLLM : LLMEnv := noCredLLM (fun _ => .error "offline") (fun _ => .error "offline") true

/-- A weather environment with `OPENWEATHER_API_KEY` unset. -/
def noKeyWeather : WeatherEnv :=
  { apiKey := "", current := fun _ => .error "offline",
    forecastItems := fun _ => .error "offline", pickMostCommon := fun l => l.headD "" }

/-- An FX environment with `EXCHANGERATE_API_KEY` unset. -/
def noKeyFx : FxEnv := { apiKey := "", call := fun _ => .error "offline" }

/-- A REST-Countries environment whose call raises. -/
def offCurrency : CurrencyEnv := { call := fun _ => .error "offline" }

/-- A yfinance environment whose call raises. -/
def offStocks : StocksEnv := { history := fun _ => .error "offline" }

/-- One `start_call` on an empty trace (handle 0). -/
def c9start : MCPTrace Unit × Nat := MCPTrace.start_call ⟨[]⟩ "demo" [] 0

/-- The trace after that call has been finalized once (successfully). -/
def c9finished : MCPTrace Unit := finalizeCall c9start.1 c9start.2 (some ()) none 0

/-! ## Helper lemmas: the stable sort -/

/-- Membership through `insertByKey`. -/
theorem mem_insertByKey {key : α → Int} {x a : α} {l : List α} :
    a ∈ insertByKey key x l ↔ a = x ∨ a ∈ l := by
  induction l with
  | nil => simp [insertByKey]
  | cons y ys ih =>
    unfold insertByKey
    by_cases hxy : key x ≤ key y
    · simp [hxy]
    · simp [hxy, ih]
      tauto

/-- Membership through `sortByKey`. -/
theorem mem_sortByKey {key : α → Int} {a : α} {l : List α} :
    a ∈ sortByKey key l ↔ a ∈ l := by
  induction l with
  | nil => simp [sortByKey]
  | cons x xs ih => simp [sortByKey, mem_insertByKey, ih]

/-- `insertByKey` preserves sortedness by the key. -/
theorem pairwise_insertByKey {key : α → Int} {x : α} {l : List α}
    (h : l.Pairwise (fun a b => key a ≤ key b)) :
    (insertByKey key x l).Pairwise (fun a b => key a ≤ key b) := by
  induction l with
  | nil => simp [insertByKey]
  | cons y ys ih =>
    rcases List.pairwise_cons.1 h with ⟨hy, hys⟩
    unfold insertByKey
    by_cases hxy : key x ≤ key y
    · rw [if_pos hxy]
      refine List.pairwise_cons.2 ⟨?_, h⟩
      intro b hb
      rcases List.mem_cons.1 hb with rfl | hb'
      · exact hxy
      · exact le_trans hxy (hy b hb')
    · rw [if_neg hxy]
      refine List.pairwise_cons.2 ⟨?_, ih hys⟩
      intro b hb
      rcases mem_insertByKey.1 hb with rfl | hb'
      · omega
      · exact hy b hb'

/-- `sortByKey` sorts: the keys are non-decreasing along the output. -/
theorem pairwise_sortByKey (key : α → Int) (l : List α) :
    (sortByKey key l).Pairwise (fun a b => key a ≤ key b) := by
  induction l with
  | nil => simp [sortByKey]
  | cons x xs ih => exact pairwise_insertByKey ih

/-- Inserting an element whose key equals `v` puts it in front of the other
`v`-keyed elements (it is only moved past strictly smaller keys). -/
theorem filter_insertByKey_eq {key : α → Int} {x : α} {v : Int} (l : List α)
    (hx : key x = v) :
    (insertByKey key x l).filter (fun y => key y == v) =
      x :: l.filter (fun y => key y == v) := by
  induction l with
  | nil => simp [insertByKey, List.filter, hx]
  | cons y ys ih =>
    unfold insertByKey
    by_cases hxy : key x ≤ key y
    · rw [if_pos hxy]
      simp [List.filter_cons, hx]
    · rw [if_neg hxy]
      have hy : ¬(key y == v) = true := by
        simp only [beq_iff_eq]
        omega
      simp only [List.filter_cons, hy, if_neg, Bool.false_eq_true, ite_false, ih]

/-- Inserting an element whose key differs from `v` leaves the `v`-keyed
subsequence unchanged. -/
theorem filter_insertByKey_ne {key : α → Int} {x : α} {v : Int} (l : List α)
    (hx : ¬ key x = v) :
    (insertByKey key x l).filter (fun y => key y == v) =
      l.filter (fun y => key y == v) := by
  induction l with
  | nil => simp [insertByKey, List.filter_cons, hx]
  | cons y ys ih =>
    unfold insertByKey
    by_cases hxy : key x ≤ key y
    · rw [if_pos hxy]
      simp [List.filter_cons, hx]
    · rw [if_neg hxy]
      simp only [List.filter_cons, ih]

/-- Stability of `sortByKey`: for every key value, the subsequence of
elements carrying that key is exactly the one of the input. -/
theorem filter_sortByKey (key : α → Int) (v : Int) (l : List α) :
    (sortByKey key l).filter (fun y => key y == v) = l.filter (fun y => key y == v) := by
  induction l with
  | nil => simp [sortByKey]
  | cons x xs ih =>
    by_cases hx : key x = v
    · rw [sortByKey, filter_insertByKey_eq _ hx, ih, List.filter_cons, if_pos (by simp [hx])]
    · rw [sortByKey, filter_insertByKey_ne _ hx, ih, List.filter_cons,
        if_neg (by simp [hx])]

/-! ## Helper lemmas: the trace recorder -/

/-- `start_call` followed by its matching finalization appends exactly one
fully-finalized call. -/
theorem finalizeCall_start_call (tr : MCPTrace ω) (name : String)
    (inputs : List (String × PyVal)) (t1 : Rat) (out : Option ω)
    (err : Option String) (t2 : Rat) :
    finalizeCall (tr.start_call name inputs t1).1 (tr.start_call name inputs t1).2 out err t2 =
      ⟨tr.calls ++ [{ tool_name := name, inputs := inputs, output := out,
                      status := if pyTruthy err then "error" else "success",
                      timestamp := t1, duration_ms := pyRound1 ((t2 - t1) * 1000),
                      error := err }]⟩ := by
  unfold MCPTrace.start_call finalizeCall
  simp [List.getElem?_concat_length, List.set_append]

/-- The finalized call appended by a `start_call`/`finalizeCall` pair is not
pending, whatever the outcome was. -/
theorem noPending_startFinalize {tr : MCPTrace ω} (h : noPendingTrace tr)
    {name : String} {inputs : List (String × PyVal)} {t1 : Rat} {out : Option ω}
    {err : Option String} {t2 : Rat} :
    noPendingTrace
      (finalizeCall (tr.start_call name inputs t1).1 (tr.start_call name inputs t1).2 out err t2) := by
  rw [finalizeCall_start_call]
  intro c hc
  rcases List.mem_append.1 hc with h1 | h2
  · exact h c h1
  · rcases List.mem_singleton.1 h2 with rfl
    by_cases he : pyTruthy err = true <;> simp [he]

/-- `_call_tool` preserves full finalization of the trace. -/
theorem noPending_callTool {tr : MCPTrace TraceOut} (h : noPendingTrace tr)
    {clk : Nat → Rat} {k : Nat} {name : String} {inputs : List (String × PyVal)}
    {res : Except String α} {enc : α → TraceOut} :
    noPendingTrace (callTool clk tr k name inputs res enc).2.1 := by
  cases res with
  | ok v => exact noPending_startFinalize h
  | error e => exact noPending_startFinalize h

/-- An LLM orchestration step preserves full finalization of the trace. -/
theorem noPending_llmStep {tr : MCPTrace TraceOut} (h : noPendingTrace tr)
    {clk : Nat → Rat} {k : Nat} {name : String} {inputs : List (String × PyVal)}
    {res : Except String String} {fallback : String} :
    noPendingTrace (llmStep clk tr k name inputs res fallback).2.1 := by
  cases res with
  | error e => exact noPending_startFinalize h
  | ok t =>
    unfold llmStep
    dsimp only
    split
    · exact noPending_startFinalize h
    · exact noPending_startFinalize h

/-- Statuses of all recorded calls, read off a computed status list. -/
theorem statuses_all_eq (n : Nat) (st : String) {tr : MCPTrace ω}
    (h : tr.calls.map (fun c => c.status) = List.replicate n st) :
    ∀ c ∈ tr.calls, c.status = st := by
  intro c hc
  exact List.eq_of_mem_replicate (h ▸ List.mem_map_of_mem _ hc)

/-! ## Rounding is sign-preserving (for the duration bound) -/

/-- `round` of a non-negative rational is non-negative. -/
theorem pythonRound_nonneg {q : Rat} (h : 0 ≤ q) : 0 ≤ pythonRound q := by
  have hf : (0 : Int) ≤ q.floor := Rat.le_floor.mpr (by exact_mod_cast h)
  have hdef : pythonRound q =
      if q - (q.floor : Rat) < 1 / 2 then q.floor
      else if (1 / 2 : Rat) < q - (q.floor : Rat) then q.floor + 1
      else if q.floor % 2 = 0 then q.floor else q.floor + 1 := rfl
  rw [hdef]
  split_ifs <;> omega

/-- `round(q, 1)` of a non-negative rational is non-negative. -/
theorem pyRound1_nonneg {q : Rat} (h : 0 ≤ q) : 0 ≤ pyRound1 q := by
  unfold pyRound1
  have h10 : (0 : Rat) ≤ q * 10 := by positivity
  have := pythonRound_nonneg h10
  have hc : (0 : Rat) ≤ (pythonRound (q * 10) : Rat) := by exact_mod_cast this
  positivity

/-! ## Claims -/

/-- The gateway returns the sentinel whenever the Groq backend fails
(missing credential or raised call) and the Gemini backend fails (missing
library, missing credential, or raised call). -/
theorem ask_gemini_sentinel_of_failures (L : LLMEnv) (prompt : String)
    (hg : L.groq.apiKey = "" ∨ ∃ e, L.groq.call prompt = .error e)
    (hm : L.gemini.hasGoogle = false ∨ L.gemini.apiKey = "" ∨
          ∃ e, L.gemini.call prompt = .error e) :
    ask_gemini L prompt = "__LLM_UNAVAILABLE__" := by
  have h1 : ask_groq L.groq prompt = none := by
    unfold ask_groq
    rcases hg with h | ⟨e, he⟩
    · simp [h]
    · by_cases hk : L.groq.apiKey = "" <;> simp [hk, he]
  have h2 : ask_gemini_backend L.gemini prompt = none := by
    unfold ask_gemini_backend
    rcases hm with h | h | ⟨e, he⟩
    · simp [h]
    · by_cases hG : L.gemini.hasGoogle = false <;> simp [hG, h]
    · by_cases hG : L.gemini.hasGoogle = false
      · simp [hG]
      · by_cases hk : L.gemini.apiKey = "" <;> simp [hG, hk, he]
  unfold ask_gemini
  simp [h1, h2, pyTruthy]

/-- C3: whenever the Groq backend fails (missing credential or raised call)
and the Gemini backend fails (missing library, missing credential, or raised
call), the gateway returns exactly the reserved sentinel.  The embedding is
a total function, so no exception reaches the caller. -/
theorem C3_gateway_sentinel_on_double_failure (L : LLMEnv) (prompt : String)
    (hg : L.groq.apiKey = "" ∨ ∃ e, L.groq.call prompt = .error e)
    (hm : L.gemini.hasGoogle = false ∨ L.gemini.apiKey = "" ∨
          ∃ e, L.gemini.call prompt = .error e) :
    ask_gemini L prompt = "__LLM_UNAVAILABLE__" :=
  ask_gemini_sentinel_of_failures L prompt hg hm

/-- Witness for C3 at a concrete double-failure environment. -/
theorem C3_witness :
    (demoLLM.groq.apiKey = "" ∧ demoLLM.gemini.apiKey = "") ∧
    ask_gemini demoLLM "Tell me about Tokyo" = "__LLM_UNAVAILABLE__" :=
  ⟨⟨rfl, rfl⟩,
   C3_gateway_sentinel_on_double_failure demoLLM "Tell me about Tokyo"
     (Or.inl rfl) (Or.inr (Or.inl rfl))⟩

/-- C10: the gateway never returns the empty string — a falsy backend answer
falls through — so every result is either the sentinel or a non-empty
backend text. -/
theorem C10_gateway_never_returns_empty (L : LLMEnv) (prompt : String) :
    ask_gemini L prompt ≠ "" ∧
    (ask_gemini L prompt = "__LLM_UNAVAILABLE__" ∨
      ∃ s, s ≠ "" ∧
        (ask_groq L.groq prompt = some s ∨ ask_gemini_backend L.gemini prompt = some s) ∧
        ask_gemini L prompt = s) := by
  simp only [ask_gemini]
  by_cases h1 : pyTruthy (ask_groq L.groq prompt) = true
  · rw [if_pos h1]
    obtain ⟨s, hs, hne⟩ : ∃ s, ask_groq L.groq prompt = some s ∧ s ≠ "" := by
      cases h : ask_groq L.groq prompt with
      | none => rw [h] at h1; exact absurd h1 (by simp [pyTruthy])
      | some s =>
        refine ⟨s, rfl, fun hemp => ?_⟩
        rw [h, hemp] at h1
        simp [pyTruthy] at h1
    rw [hs]
    exact ⟨by simpa using hne, Or.inr ⟨s, hne, Or.inl rfl, rfl⟩⟩
  · rw [if_neg h1]
    by_cases h2 : pyTruthy (ask_gemini_backend L.gemini prompt) = true
    · rw [if_pos h2]
      obtain ⟨t, ht, htne⟩ : ∃ t, ask_gemini_backend L.gemini prompt = some t ∧ t ≠ "" := by
        cases h : ask_gemini_backend L.gemini prompt with
        | none => rw [h] at h2; exact absurd h2 (by simp [pyTruthy])
        | some t =>
          refine ⟨t, rfl, fun hemp => ?_⟩
          rw [h, hemp] at h2
          simp [pyTruthy] at h2
      rw [ht]
      exact ⟨by simpa using htne, Or.inr ⟨t, htne, Or.inr rfl, rfl⟩⟩
    · rw [if_neg h2]
      exact ⟨by simp, Or.inl rfl⟩

/-- C4: the sample search results are functions of the arguments only — the
incoming global generator state (anything other calls did in between) does
not influence the output, because `random.seed` overwrites it — stated for
all inputs and for the Delhi/Tokyo 2025-06-01 search in particular. -/
theorem C4_sample_search_deterministic (S : Type) (R : PyRandom S) (hsh : String → Int)
    (from_city to_city date checkin checkout : String) (travelers guests : Int)
    (s1 s2 : S) :
    (search_flights R hsh from_city to_city date travelers s1).1 =
      (search_flights R hsh from_city to_city date travelers s2).1 ∧
    (search_hotels R hsh to_city checkin checkout guests s1).1 =
      (search_hotels R hsh to_city checkin checkout guests s2).1 ∧
    (search_flights R hsh "Delhi" "Tokyo" "2025-06-01" travelers s1).1 =
      (search_flights R hsh "Delhi" "Tokyo" "2025-06-01" travelers s2).1 :=
  ⟨rfl, rfl, rfl⟩

/-- C5: flight results are non-decreasing in `price_usd`, hotel results in
`price_per_night_usd`, and for every price the subsequence of records at
that price equals the one of the generation-order list (stability). -/
theorem C5_results_sorted_by_price_stable (S : Type) (R : PyRandom S) (hsh : String → Int)
    (from_city to_city date checkin checkout : String) (travelers guests : Int)
    (s1 s2 : S) :
    ((search_flights R hsh from_city to_city date travelers s1).1.Pairwise
        (fun a b => a.price_usd ≤ b.price_usd)) ∧
    (∀ p : Int,
      (search_flights R hsh from_city to_city date travelers s1).1.filter
          (fun x => x.price_usd == p) =
        (flightsRaw R hsh from_city to_city date travelers).filter
          (fun x => x.price_usd == p)) ∧
    ((search_hotels R hsh to_city checkin checkout guests s2).1.Pairwise
        (fun a b => a.price_per_night_usd ≤ b.price_per_night_usd)) ∧
    (∀ p : Int,
      (search_hotels R hsh to_city checkin checkout guests s2).1.filter
          (fun x => x.price_per_night_usd == p) =
        (hotelsRaw R hsh to_city checkin checkout guests).filter
          (fun x => x.price_per_night_usd == p)) := by
  refine ⟨?_, ?_, ?_, ?_⟩
  · exact pairwise_sortByKey (fun x : Flight => x.price_usd) _
  · intro p
    exact filter_sortByKey (fun x : Flight => x.price_usd) p _
  · exact pairwise_sortByKey (fun x : Hotel => x.price_per_night_usd) _
  · intro p
    exact filter_sortByKey (fun x : Hotel => x.price_per_night_usd) p _

/-- `end_call` on the handle `start_call` just returned takes the in-range
branch and appends exactly one finalized call. -/
theorem end_call_fresh_handle (tr : MCPTrace ω) (name : String)
    (inputs : List (String × PyVal)) (t1 : Rat) (out : Option ω)
    (err : Option String) (t2 : Rat) :
    (tr.start_call name inputs t1).1.end_call ((tr.start_call name inputs t1).2 : Int)
        out err t2 =
      .ok ⟨tr.calls ++ [{ tool_name := name, inputs := inputs, output := out,
                          status := if pyTruthy err then "error" else "success",
                          timestamp := t1, duration_ms := pyRound1 ((t2 - t1) * 1000),
                          error := err }]⟩ := by
  have hfin := finalizeCall_start_call tr name inputs t1 out err t2
  have h2 : (tr.start_call name inputs t1).2 = tr.calls.length := rfl
  have hlen : (tr.start_call name inputs t1).1.calls.length = tr.calls.length + 1 := by
    simp [MCPTrace.start_call]
  unfold MCPTrace.end_call
  rw [h2] at hfin ⊢
  rw [if_pos ⟨by omega, by rw [hlen]; exact_mod_cast by omega⟩]
  rw [Int.toNat_natCast]
  rw [hfin]

/-- C6: after `start_call` returning handle `h` and `end_call(h, out, err)`,
the call at `h` has status `error` iff `err` is truthy (non-None, non-empty)
and `success` otherwise, stores exactly the passed output, keeps the error
message unchanged, and has a non-negative duration (when finalization does
not precede the start in time). -/
theorem C6_end_call_finalizes_the_started_call (ω : Type) (tr : MCPTrace ω)
    (name : String) (inputs : List (String × PyVal)) (t1 : Rat) (out : Option ω)
    (err : Option String) (t2 : Rat) (h : t1 ≤ t2) :
    ∃ tr2,
      (tr.start_call name inputs t1).1.end_call ((tr.start_call name inputs t1).2 : Int)
          out err t2 = .ok tr2 ∧
      ∃ c, tr2.calls[(tr.start_call name inputs t1).2]? = some c ∧
        c.output = out ∧
        c.error = err ∧
        (c.status = "error" ↔ pyTruthy err = true) ∧
        (c.status = "success" ↔ pyTruthy err = false) ∧
        0 ≤ c.duration_ms := by
  refine ⟨_, end_call_fresh_handle tr name inputs t1 out err t2, ?_⟩
  have h2 : (tr.start_call name inputs t1).2 = tr.calls.length := rfl
  refine ⟨_, by rw [h2]; exact List.getElem?_concat_length _ _, rfl, rfl, ?_, ?_, ?_⟩
  · by_cases he : pyTruthy err = true <;> simp [he]
  · by_cases he : pyTruthy err = true <;> simp [he]
  · exact pyRound1_nonneg (by have : (0:Rat) ≤ t2 - t1 := by linarith
                              positivity)

/-- Witness for C6 at a concrete trace and times. -/
theorem C6_witness :
    ((0 : Rat) ≤ 1) ∧
    (∃ tr2,
      ((⟨[]⟩ : MCPTrace Unit).start_call "demo" [] 0).1.end_call
          ((((⟨[]⟩ : MCPTrace Unit).start_call "demo" [] 0).2 : Nat) : Int)
          (some ()) (some "boom") 1 = .ok tr2 ∧
      ∃ c, tr2.calls[((⟨[]⟩ : MCPTrace Unit).start_call "demo" [] 0).2]? = some c ∧
        c.output = some () ∧
        c.error = some "boom" ∧
        (c.status = "error" ↔ pyTruthy (some "boom") = true) ∧
        (c.status = "success" ↔ pyTruthy (some "boom") = false) ∧
        0 ≤ c.duration_ms) :=
  ⟨by norm_num,
   C6_end_call_finalizes_the_started_call Unit ⟨[]⟩ "demo" [] 0 (some ()) (some "boom") 1
     (by norm_num)⟩

/-- C9 counterexample: handle 0 of `c9finished` no longer designates a
not-yet-finished call, yet `end_call` neither fails with an out-of-range
error nor leaves the trace unchanged — it silently overwrites. -/
theorem C9_counterexample_double_finish :
    (c9start.1.end_call 0 (some ()) none 0 = .ok c9finished) ∧
    ∃ tr3, c9finished.end_call 0 (some ()) (some "late") 1 = .ok tr3 ∧
      tr3.calls.map (fun c => c.error) ≠ c9finished.calls.map (fun c => c.error) := by
  refine ⟨rfl, ⟨_, rfl, ?_⟩⟩
  decide

/-- C9 amended: `end_call` fails with the out-of-range error exactly when
the handle lies outside `[-len, len)` — a Python list index error, which
leaves the trace unchanged; any in-range handle (including one whose call
was already finalized, and negative ones) is accepted and overwritten. -/
theorem C9_amended_end_call_range (ω : Type) (tr : MCPTrace ω) (index : Int)
    (out : Option ω) (err : Option String) (t : Rat) :
    tr.end_call index out err t = .error "list index out of range" ↔
      (index < -(tr.calls.length : Int) ∨ (tr.calls.length : Int) ≤ index) := by
  simp only [MCPTrace.end_call]
  split_ifs with h1 h2
  · constructor
    · intro hc
      exact absurd hc (by simp)
    · intro hr
      exfalso
      omega
  · constructor
    · intro hc
      exact absurd hc (by simp)
    · intro hr
      exfalso
      omega
  · constructor
    · intro _
      omega
    · intro _
      rfl

/-- C8: after a full Trip Agent or Market Agent run — with every tool and
LLM invocation embedded as a total `Except`-valued behaviour, the `error`
case being the exception path — every recorded call has been finalized:
no trace entry is left `pending`. -/
theorem C8_pipelines_finalize_every_call (T : TripTools) (M : MarketTools)
    (clk clk2 : Nat → Rat)
    (from_city to_city start_date end_date budget preferences country extra_query : String)
    (travelers : Int) :
    noPendingTrace
      (run_trip_agent T clk from_city to_city start_date end_date budget travelers
        preferences).trace ∧
    noPendingTrace (run_market_agent M clk2 country extra_query).trace := by
  have h0 : noPendingTrace (⟨[]⟩ : MCPTrace TraceOut) := by
    intro c hc
    cases hc
  constructor
  · exact noPending_llmStep (noPending_callTool (noPending_callTool (noPending_callTool
      (noPending_callTool (noPending_callTool (noPending_llmStep h0))))))
  · exact noPending_llmStep (noPending_callTool (noPending_callTool (noPending_callTool
      (noPending_callTool h0))))

/-! ## Every generated flight/hotel record carries `sample = True` -/

/-- A generated flight record is flagged as sample data. -/
theorem genFlight_sample (R : PyRandom S) (f t d : String) (tv : Int) (s : S) :
    (genFlight R f t d tv s).1.sample = true := rfl

/-- Every record of the flight-generation loop is flagged as sample data. -/
theorem genFlights_sample (R : PyRandom S) (f t d : String) (tv : Int) :
    ∀ (n : Nat) (s : S), ∀ fl ∈ (genFlights R f t d tv n s).1, fl.sample = true := by
  intro n
  induction n with
  | zero =>
    intro s fl hfl
    simp [genFlights] at hfl
  | succ n ih =>
    intro s fl hfl
    simp only [genFlights] at hfl
    rcases List.mem_cons.1 hfl with rfl | h'
    · exact genFlight_sample R f t d tv s
    · exact ih _ fl h'

/-- A generated hotel record is flagged as sample data. -/
theorem genHotel_sample (R : PyRandom S) (c ci co : String) (g : Int) (s : S) :
    (genHotel R c ci co g s).1.sample = true := rfl

/-- Every record of the hotel-generation loop is flagged as sample data. -/
theorem genHotels_sample (R : PyRandom S) (c ci co : String) (g : Int) :
    ∀ (n : Nat) (s : S), ∀ h ∈ (genHotels R c ci co g n s).1, h.sample = true := by
  intro n
  induction n with
  | zero =>
    intro s h hh
    simp [genHotels] at hh
  | succ n ih =>
    intro s h hh
    simp only [genHotels] at hh
    rcases List.mem_cons.1 hh with rfl | h'
    · exact genHotel_sample R c ci co g s
    · exact ih _ h h'

/-! ## No attraction or curated exchange record carries a `sample` key -/

/-- Records of the curated attraction table carry no `sample` key. -/
theorem curated_attractions_sample_none (k : String) (l : List Attraction)
    (h : CURATED_ATTRACTIONS k = some l) : ∀ a ∈ l, a.sample = none := by
  unfold CURATED_ATTRACTIONS at h
  split at h
  all_goals first
    | (injection h with h'; subst h'; decide)
    | exact Option.noConfusion h

/-- Records of the generic attraction fallback carry no `sample` key. -/
theorem generic_attractions_sample_none (city : String) :
    ∀ a ∈ genericAttractions city, a.sample = none := by
  intro a ha
  simp only [genericAttractions, List.mem_cons, List.not_mem_nil, or_false] at ha
  rcases ha with rfl | rfl | rfl | rfl | rfl <;> rfl

/-- Records parsed from the LLM answer carry no `sample` key. -/
theorem parseAttractionLine_sample_none {line : String} {a : Attraction}
    (h : parseAttractionLine line = some a) : a.sample = none := by
  unfold parseAttractionLine at h
  dsimp only at h
  split_ifs at h
  all_goals (injection h with h'; subst h'; rfl)

/-- `get_attractions` never returns a record with a `sample` key. -/
theorem get_attractions_sample_none (L : LLMEnv) (city : String) :
    ∀ a ∈ get_attractions L city, a.sample = none := by
  unfold get_attractions
  split
  · next l h => exact curated_attractions_sample_none _ l h
  · next h =>
    intro a ha
    dsimp only at ha
    split at ha
    · exact generic_attractions_sample_none city a ha
    · split at ha
      · exact generic_attractions_sample_none city a ha
      · rcases List.mem_filterMap.1 ha with ⟨line, _, hline⟩
        exact parseAttractionLine_sample_none hline

/-- Records of the curated exchange table carry no `sample` key. -/
theorem exchanges_table_sample_none (k : String) : ∀ e ∈ EXCHANGES k, e.sample = none := by
  unfold EXCHANGES
  split <;> decide

/-! ## The corrected tool-adapter sample-flag claims -/

/-- C2 counterexample: at the valid inputs `"Tokyo"` (attractions) and
`"Japan"` (exchange lookup), every returned record LACKS the boolean
sample/fallback key (`none` = key absent), refuting the claim that every
adapter result carries it. -/
theorem C2_counterexample_missing_sample_flag :
    ((get_attractions demoLLM "Tokyo").map (fun a => a.sample) =
      [none, none, none, none, none, none]) ∧
    ((get_exchange_info "Japan").map (fun e => e.sample) = [none]) :=
  ⟨rfl, rfl⟩

/-- C2 amended: the weather, flight, hotel and FX adapters return records
carrying the sample flag (a typed field of their result shapes), and the
flag is `true` whenever the adapter's credential is absent (flights/hotels
always, having no live backend at all); the attraction adapter's records
never carry the flag; exchange records carry it (as `true`) only on the
unknown-country placeholder. -/
theorem C2_amended_sample_flags (S : Type) (R : PyRandom S) (hsh : String → Int)
    (W : WeatherEnv) (F : FxEnv) (L : LLMEnv)
    (city city2 country code from_city to_city date checkin checkout : String)
    (travelers guests : Int) (s1 s2 : S)
    (hW : W.apiKey = "") (hF : F.apiKey = "") :
    (get_current_weather W city).sample = true ∧
    (∀ day ∈ get_weather_forecast W city, day.sample = true) ∧
    (∀ fl ∈ (search_flights R hsh from_city to_city date travelers s1).1,
      fl.sample = true) ∧
    (∀ h ∈ (search_hotels R hsh to_city checkin checkout guests s2).1,
      h.sample = true) ∧
    (get_fx_rates F code).sample = true ∧
    (∀ a ∈ get_attractions L city2, a.sample = none) ∧
    (∀ e ∈ get_exchange_info country, e.sample = none ∨ e.sample = some true) := by
  refine ⟨?_, ?_, ?_, ?_, ?_, get_attractions_sample_none L city2, ?_⟩
  · unfold get_current_weather
    rw [if_pos hW]
    rfl
  · unfold get_weather_forecast
    rw [if_pos hW]
    decide
  · intro fl hfl
    exact genFlights_sample R from_city to_city date travelers _ _ fl (mem_sortByKey.1 hfl)
  · intro h hh
    exact genHotels_sample R to_city checkin checkout guests _ _ h (mem_sortByKey.1 hh)
  · unfold get_fx_rates
    rw [if_pos hF]
    split <;> rfl
  · unfold get_exchange_info
    split
    · intro e he
      rcases List.mem_singleton.1 he with rfl
      exact Or.inr rfl
    · intro e he
      exact Or.inl (exchanges_table_sample_none _ e he)

/-- Witness for C2 (amended) at concrete environments with the credentials
absent. -/
theorem C2_witness_sample_flags :
    (noKeyWeather.apiKey = "" ∧ noKeyFx.apiKey = "") ∧
    ((get_current_weather noKeyWeather "Pune").sample = true ∧
    (∀ day ∈ get_weather_forecast noKeyWeather "Pune", day.sample = true) ∧
    (∀ fl ∈ (search_flights toyRandom toyHash "Delhi" "Tokyo" "2025-06-01" 2 0).1,
      fl.sample = true) ∧
    (∀ h ∈ (search_hotels toyRandom toyHash "Tokyo" "2025-06-01" "2025-06-05" 2 0).1,
      h.sample = true) ∧
    (get_fx_rates noKeyFx "XYZ").sample = true ∧
    (∀ a ∈ get_attractions demoLLM "Pune", a.sample = none) ∧
    (∀ e ∈ get_exchange_info "France", e.sample = none ∨ e.sample = some true)) :=
  ⟨⟨rfl, rfl⟩,
   C2_amended_sample_flags Nat toyRandom toyHash noKeyWeather noKeyFx demoLLM
     "Pune" "Pune" "France" "XYZ" "Delhi" "Tokyo" "2025-06-01" "2025-06-01" "2025-06-05"
     2 2 0 0 rfl rfl⟩

/-- The status sequence after a successful `_call_tool` step: the previous
statuses followed by `success`. -/
theorem callTool_ok_statuses (clk : Nat → Rat) (tr : MCPTrace TraceOut) (k : Nat)
    (name : String) (inputs : List (String × PyVal)) (v : α) (enc : α → TraceOut) :
    (callTool clk tr k name inputs (.ok v) enc).2.1.calls.map (fun c => c.status) =
      tr.calls.map (fun c => c.status) ++ ["success"] := by
  show (finalizeCall (tr.start_call name inputs (clk k)).1 (tr.start_call name inputs (clk k)).2
      (some (enc v)) none (clk (k + 1))).calls.map (fun c => c.status) = _
  rw [finalizeCall_start_call]
  simp [pyTruthy]

/-- The status sequence after an LLM step whose gateway call returned (did
not raise): the previous statuses followed by `success`, whether the answer
was the sentinel or real text. -/
theorem llmStep_ok_statuses (clk : Nat → Rat) (tr : MCPTrace TraceOut) (k : Nat)
    (name : String) (inputs : List (String × PyVal)) (t fallback : String) :
    (llmStep clk tr k name inputs (.ok t) fallback).2.1.calls.map (fun c => c.status) =
      tr.calls.map (fun c => c.status) ++ ["success"] := by
  unfold llmStep
  dsimp only
  split
  all_goals
    rw [finalizeCall_start_call]
    simp [pyTruthy]

/-- An LLM step whose gateway call returned the sentinel yields the given
fallback text. -/
theorem llmStep_result_sentinel (clk : Nat → Rat) (tr : MCPTrace TraceOut) (k : Nat)
    (name : String) (inputs : List (String × PyVal)) {t : String} (fallback : String)
    (h : t = "__LLM_UNAVAILABLE__") :
    (llmStep clk tr k name inputs (.ok t) fallback).1 = fallback := by
  unfold llmStep
  dsimp only
  rw [if_pos h]

/-- The number of recorded calls, read off a computed status list. -/
theorem calls_length_of_statuses {tr : MCPTrace ω} {L : List String}
    (h : tr.calls.map (fun c => c.status) = L) : tr.calls.length = L.length := by
  have := congrArg List.length h
  simpa using this

/-- C1: the Trip Agent run for destination Tokyo with no weather/LLM
credentials configured returns the built-in Tokyo cultural paragraph, the
sample current weather (flag set, 22 °C), and the built-in Tokyo itinerary;
its trace holds exactly 7 calls, none with status `error`. -/
theorem C1_trip_tokyo_no_credentials (S : Type) (R : PyRandom S) (hsh : String → Int)
    (sFl sHo : S) (gCall gmCall : String → Except String (Option String)) (hasG : Bool)
    (wCur : String → Except String LiveCurrent) (wFc : String → Except String (List FcItem))
    (pick : List String → String) (clk : Nat → Rat)
    (from_city start_date end_date budget preferences : String) (travelers : Int) :
    let resp := run_trip_agent
      (realTripTools (noCredLLM gCall gmCall hasG)
        { apiKey := "", current := wCur, forecastItems := wFc, pickMostCommon := pick }
        R hsh sFl sHo)
      clk from_city "Tokyo" start_date end_date budget travelers preferences
    resp.cultural_info = culturalInfoTokyo ∧
    resp.current_weather =
      .ok (SAMPLE_CURRENT_with "Tokyo" "SAMPLE DATA - OPENWEATHER_API_KEY not set") ∧
    (SAMPLE_CURRENT_with "Tokyo" "SAMPLE DATA - OPENWEATHER_API_KEY not set").sample = true ∧
    (SAMPLE_CURRENT_with "Tokyo" "SAMPLE DATA - OPENWEATHER_API_KEY not set").temp_c = 22 ∧
    resp.itinerary = itineraryTextTokyo ∧
    resp.trace.calls.length = 7 ∧
    ∀ c ∈ resp.trace.calls, c.status ≠ "error" := by
  have hsent : ∀ p, ask_gemini (noCredLLM gCall gmCall hasG) p = "__LLM_UNAVAILABLE__" :=
    fun p => ask_gemini_sentinel_of_failures _ p (Or.inl rfl) (Or.inr (Or.inl rfl))
  have hst : (run_trip_agent
      (realTripTools (noCredLLM gCall gmCall hasG)
        { apiKey := "", current := wCur, forecastItems := wFc, pickMostCommon := pick }
        R hsh sFl sHo)
      clk from_city "Tokyo" start_date end_date budget travelers
      preferences).trace.calls.map (fun c => c.status) = List.replicate 7 "success" := by
    simp only [run_trip_agent, realTripTools, llmStep_ok_statuses, callTool_ok_statuses]
    rfl
  refine ⟨?_, rfl, rfl, rfl, ?_, by simpa using calls_length_of_statuses hst,
    fun c hc => by rw [statuses_all_eq 7 "success" hst c hc]; decide⟩
  · simp only [run_trip_agent, realTripTools]
    rw [llmStep_result_sentinel _ _ _ _ _ _ (hsent _)]
    rfl
  · simp only [run_trip_agent, realTripTools]
    rw [llmStep_result_sentinel _ _ _ _ _ _ (hsent _)]
    rfl

/-- C7: the Market Agent run for the unlisted country France with all
external calls failing returns the `N/A` currency placeholder, all-zero FX
rates, the single generic exchange placeholder (all flagged as sample), and
the generic templated market summary referencing France. -/
theorem C7_market_france_all_failing (gCall gmCall : String → Except String (Option String))
    (hasG : Bool) (eCur : String) (fxCall : String → Except String FxApiData)
    (stHist : String → Except String (List Rat)) (clk : Nat → Rat) (extra_query : String) :
    let resp := run_market_agent
      (realMarketTools (noCredLLM gCall gmCall hasG)
        { call := fun _ => .error eCur } { apiKey := "", call := fxCall }
        { history := stHist })
      clk "France" extra_query
    resp.currency_info =
      .ok { country := "France", currency_code := "N/A", currency_name := "Unknown",
            currency_symbol := "", capital := "Unknown", latlng := [0, 0], flag := "",
            sample := true, note := some "Country not found" } ∧
    resp.fx_rates =
      .ok { base := "N/A", rates := ⟨0, 0, 0, 0⟩, last_updated := "N/A", sample := true,
            note := some "Currency not found in fallback data" } ∧
    resp.exchanges = .ok [genericExchange "France"] ∧
    (genericExchange "France").sample = some true ∧
    resp.market_summary = get_fallback_market_summary "France" "Unknown" (some [""]) ∧
    pyStartsWith resp.market_summary "France" = true := by
  cases hasG <;> exact ⟨rfl, rfl, rfl, rfl, rfl, rfl⟩
